import Mathlib

/-
Verification of the media-bundle object-storage subsystem
(`src/services/storage.py`, classes `StorageBase` and `R2Storage`).

The Python module is shallowly embedded: Python strings are `List Char`,
dictionaries are association lists, the remote S3-compatible store is a
`List (Str × S3Object)` state threaded explicitly, and every method that can
raise returns `Except Err α × St` (a raised exception propagates the state
reached so far, like a real exception leaves the remote store mutated).
Transport behaviour of the underlying boto3 client (which is an external
library, not part of the repository) is modelled by per-key failure oracles in
the context, with S3/R2 wire semantics documented on each raw-client operation.
-/

set_option autoImplicit false

namespace Storage

/-- Python strings are modelled as lists of characters. -/
abbrev Str := List Char

/-- Lift a Lean string literal into the model's string type. -/
def str (s : String) : Str := s.data

/-- Python `s.lstrip("/")`: drop leading slash characters. -/
def pyLstrip (s : Str) : Str := s.dropWhile (fun c => c = '/')

/-- Python `s.rstrip("/")`: drop trailing slash characters. -/
def pyRstrip (s : Str) : Str := (s.reverse.dropWhile (fun c => c = '/')).reverse

/-- Python `s.strip("/")`: drop slash characters from both ends. -/
def pyStrip (s : Str) : Str := pyRstrip (pyLstrip s)

/-- Decimal digit character, `digitChar n = '0' + n` for `n < 10`. -/
def digitChar (n : Nat) : Char := Char.ofNat (48 + n)

/-- Decimal digits of `n`, with enough fuel to terminate (the fuel only makes
the recursion structural; `n + 1` steps always suffice since `n / 10 < n`). -/
def natCharsAux : Nat → Nat → Str
  | 0, _ => []
  | fuel + 1, n =>
    if n < 10 then [digitChar n]
    else natCharsAux fuel (n / 10) ++ [digitChar (n % 10)]

/-- Decimal representation of a natural number, as Python's `str(int)`
produces for the non-negative integers used by the module. -/
def natChars (n : Nat) : Str := natCharsAux (n + 1) n

/-- Python `os.path.dirname` for POSIX paths: the part of the path before the
final slash, with trailing slashes stripped unless the result is all slashes. -/
def pyDirname (s : Str) : Str :=
  let head := (s.reverse.dropWhile (fun c => c ≠ '/')).reverse
  if head ≠ [] ∧ ¬ head.all (fun c => c = '/') then pyRstrip head else head

/-- The component of a path after its final slash (the whole path when it has
no slash). Used only in proofs, to separate storage keys. -/
def lastComp (s : Str) : Str := (s.reverse.takeWhile (fun c => c ≠ '/')).reverse

/-- Python truthiness of `A or B` for optional strings: `None` and `""` are
falsy. -/
def pyOr (o : Option Str) (d : Str) : Str :=
  match o with
  | some s => if s = [] then d else s
  | none => d

/-- Normalise an optional string through Python truthiness: `None` and `""`
both behave as absent. -/
def optTruthy (o : Option Str) : Option Str :=
  match o with
  | some s => if s = [] then none else some s
  | none => none

/-- Python `dict` lookup on an association list (keys are unique in every
dictionary the module builds). -/
def dictGet (m : List (Str × Str)) (k : Str) : Option Str :=
  match m with
  | [] => none
  | (k', v) :: rest => if k' = k then some v else dictGet rest k

/-- Membership test for `dictGet`. -/
def dictHas (m : List (Str × Str)) (k : Str) : Bool := (dictGet m k).isSome

/-- Python `{**a, **b}` / `a.update(b)`: keys of `a` first (values from `b`
winning on conflicts), then the keys of `b` absent from `a`, preserving
insertion order. -/
def dictUnion (a b : List (Str × Str)) : List (Str × Str) :=
  a.map (fun p => match dictGet b p.1 with | some v => (p.1, v) | none => p) ++
  b.filter (fun p => ¬ dictHas a p.1)

/-- Errors raised by the module. `StorageError` instances are split by site;
`clientErr` stands for any exception raised by the underlying S3 client. -/
inductive Err where
  | invalidKey
  | alreadyExists
  | missingSongId
  | clientErr
  deriving DecidableEq

/-- The `ObjectStatus` enum of the module. -/
inductive ObjectStatus where
  | available
  | not_found
  | in_progress
  | unknown
  deriving DecidableEq

/-- The `.value` string of an `ObjectStatus` member. -/
def ObjectStatus.val : ObjectStatus → Str
  | .available => str "available"
  | .not_found => str "not_found"
  | .in_progress => str "in_progress"
  | .unknown => str "unknown"

/-- The manifest JSON object persisted at `<prefix>/manifest.json`. The nested
`links` / `keys` / `versions` / `etags` dictionaries are flattened into one
field per asset slot; `Option` covers both JSON `null` and an absent key (the
fresh manifest synthesised by `replace_media_asset` omits some keys), a
distinction invisible to the `.get` reads the module performs. -/
structure Manifest where
  song_id : Str
  uploaded_at : Option Nat
  bucket : Str
  pfx : Str
  links_audio : Option Str
  links_video : Option Str
  links_art : Option Str
  keys_audio : Option Str
  keys_video : Option Str
  keys_art : Option Str
  metadata : List (Str × Str)
  uploader_id : Option Str
  versions_audio : Option Str
  versions_video : Option Str
  versions_art : Option Str
  etags_audio : Option Str
  etags_video : Option Str
  etags_art : Option Str
  deriving DecidableEq

/-- The per-object upload-log JSON payload written by `_write_object_log`. -/
structure LogEntry where
  song_id : Option Str
  user_id : Option Str
  key : Str
  status : Str
  size_bytes : Option Nat
  content_type : Option Str
  checksum : Option Str
  timestamp : Nat
  deriving DecidableEq

/-- A stored object's body: raw uploaded bytes, or one of the two JSON payload
shapes the module serialises with `json.dumps` (whose round trip through
`json.loads` is the identity on these payloads). -/
inductive Body where
  | raw (bytes : List Nat)
  | manifestJson (m : Manifest)
  | logJson (l : LogEntry)
  deriving DecidableEq

/-- Content length of a body. The JSON encoding's exact byte length is not
modelled; no claim depends on the size of a JSON object. -/
def Body.size : Body → Nat
  | .raw b => b.length
  | .manifestJson _ => 0
  | .logJson _ => 0

/-- An object held by the remote store: body, content type and the
provider-side metadata tags (an empty dictionary is what the wire reports when
no `Metadata` argument was sent). -/
structure S3Object where
  body : Body
  contentType : Option Str
  metadata : List (Str × Str)
  deriving DecidableEq

/-- The `StoredObjectInfo` dataclass (the opaque `raw` payload and the
provider-clock timestamps are not modelled; ETag-derived checksums are not
tracked and appear as `none`). -/
structure StoredObjectInfo where
  key : Str
  size_bytes : Option Nat
  checksum : Option Str
  content_type : Option Str
  metadata : Option (List (Str × Str))
  deriving DecidableEq

/-- The `UploadResult` dataclass (ETags and version identifiers of the remote
store are not modelled and appear as `none`). -/
structure UploadResult where
  key : Str
  etag : Option Str
  version_id : Option Str
  deriving DecidableEq

/-- The `MediaBundleResult` dataclass. -/
structure MediaBundleResult where
  song_id : Str
  audio_key : Option Str
  video_key : Option Str
  art_key : Option Str
  audio_url : Option Str
  video_url : Option Str
  art_url : Option Str
  manifest_key : Str
  manifest_url : Option Str
  deriving DecidableEq

/-- Configuration and environment of one `R2Storage` instance: the constructor
arguments that matter to the claims, the `mimetypes.guess_type` oracle, the
transport-failure oracles of the underlying client, and the clock (constant
during one call; `time.time()` in seconds). -/
structure Ctx where
  bucket : Str
  basePathArg : Str
  publicBaseUrl : Option Str
  guessMime : Str → Option Str
  putFails : Str → Bool
  retrFails : Str → Bool
  deleteFails : Str → Bool
  signFails : Bool
  now : Nat

/-- The `self.base_path` attribute: the constructor strips slashes from both
ends of the `base_path` argument. -/
def Ctx.base_path (c : Ctx) : Str := pyStrip c.basePathArg

/-- The remote bucket: a map from fully-resolved wire keys to objects, as an
association list where the most recent write shadows older entries. -/
abbrev St := List (Str × S3Object)

/-- Lookup in the remote bucket. -/
def find (st : St) (k : Str) : Option S3Object :=
  match st with
  | [] => none
  | (k', v) :: rest => if k' = k then some v else find rest k

/-- Model of the client's `head_object` call: raises `ClientError` when the key
is absent (HTTP 404) or when transport/credentials fail (`retrFails`). -/
def s3Head (ctx : Ctx) (st : St) (k : Str) : Except Err S3Object :=
  if ctx.retrFails k then .error .clientErr
  else
    match find st k with
    | some o => .ok o
    | none => .error .clientErr

/-- Model of the client's `get_object` body retrieval; same failure conditions
as `head_object`. -/
def s3Get (ctx : Ctx) (st : St) (k : Str) : Except Err S3Object :=
  if ctx.retrFails k then .error .clientErr
  else
    match find st k with
    | some o => .ok o
    | none => .error .clientErr

/-- Model of the client's `put_object` call: fails only on transport error;
otherwise creates or replaces the object at the key. -/
def s3Put (ctx : Ctx) (st : St) (k : Str) (o : S3Object) : Except Err St :=
  if ctx.putFails k then .error .clientErr else .ok ((k, o) :: st)

/-- Model of the client's `delete_object` call. S3/R2 `DeleteObject` is
idempotent at the wire level: deleting an absent key still succeeds (HTTP 204
No Content), so the call raises only on transport/auth errors. -/
def s3Delete (ctx : Ctx) (st : St) (k : Str) : Except Err St :=
  if ctx.deleteFails k then .error .clientErr
  else .ok (st.filter (fun p => ¬ (p.1 = k)))

/-- Model of the client's `copy_object` call as used by `update_metadata`
(same-key copy with `MetadataDirective="REPLACE"`): fails when the source is
unreadable (absent or transport error); on success it stores the source object
again with the given metadata and content type. -/
def s3CopyReplaceMeta (ctx : Ctx) (st : St) (k : Str) (md : List (Str × Str))
    (ct : Option Str) : Except Err St :=
  if ctx.retrFails k then .error .clientErr
  else
    match find st k with
    | none => .error .clientErr
    | some o => .ok ((k, { o with metadata := md, contentType := ct }) :: st)

/-- A successfully generated presigned URL (its exact shape is opaque to the
module; only being a non-empty, key-determined string matters). -/
def presignUrl (k : Str) (e : Nat) : Str :=
  str "presigned://" ++ k ++ str "?exp=" ++ natChars e

/-- `StorageBase.resolve_key`: raises on the empty key; otherwise joins the
configured base path with the logical key stripped of leading slashes. -/
def resolve_key (ctx : Ctx) (key : Str) : Except Err Str :=
  if key = [] then .error .invalidKey
  else if ctx.base_path ≠ [] then .ok (ctx.base_path ++ '/' :: pyLstrip key)
  else .ok (pyLstrip key)

/-- `R2Storage.object_exists`: resolves the key, then treats any failure of the
`head_object` call as non-existence. -/
def object_exists (ctx : Ctx) (key : Str) (st : St) : Except Err Bool × St :=
  match resolve_key ctx key with
  | .error e => (.error e, st)
  | .ok r2 =>
    match s3Head ctx st r2 with
    | .ok _ => (.ok true, st)
    | .error _ => (.ok false, st)

/-- `R2Storage.get_object_info`: resolves the key, then returns `none` on any
failure of the `head_object` call. -/
def get_object_info (ctx : Ctx) (key : Str) (st : St) :
    Except Err (Option StoredObjectInfo) × St :=
  match resolve_key ctx key with
  | .error e => (.error e, st)
  | .ok r2 =>
    match s3Head ctx st r2 with
    | .error _ => (.ok none, st)
    | .ok o =>
      (.ok (some { key := r2, size_bytes := some o.body.size, checksum := none,
                   content_type := o.contentType,
                   metadata := if o.metadata = [] then none else some o.metadata }),
       st)

/-- `R2Storage.upload_file` for in-memory payloads (the file-path and stream
variants, `cache_control`, `content_disposition` and `compute_md5` play no role
in any claim and are omitted; the single-request `put_object` path is modelled,
the multipart path differing only in how the ETag is obtained). Mirrors the
source order: resolve, infer content type, existence check when
`overwrite=false` (note the check passes the already-resolved key back through
`object_exists`, which resolves again), then the put. -/
def upload_file (ctx : Ctx) (key : Str) (file : Body) (content_type : Option Str)
    (metadata : List (Str × Str)) (overwrite : Bool) (st : St) :
    Except Err UploadResult × St :=
  match resolve_key ctx key with
  | .error e => (.error e, st)
  | .ok r2 =>
    let ct := optTruthy
      (match optTruthy content_type with
       | none => ctx.guessMime key
       | some c => some c)
    match (if overwrite then (.ok false, st) else object_exists ctx r2 st) with
    | (.error e, st1) => (.error e, st1)
    | (.ok true, st1) => (.error .alreadyExists, st1)
    | (.ok false, st1) =>
      match s3Put ctx st1 r2 { body := file, contentType := ct, metadata := metadata } with
      | .error e => (.error e, st1)
      | .ok st2 => (.ok { key := r2, etag := none, version_id := none }, st2)

/-- `R2Storage.delete_object`: resolves the key, attempts the delete, and on an
exception re-raises only when `missing_ok` is false. -/
def delete_object (ctx : Ctx) (key : Str) (missing_ok : Bool) (st : St) :
    Except Err Unit × St :=
  match resolve_key ctx key with
  | .error e => (.error e, st)
  | .ok r2 =>
    match s3Delete ctx st r2 with
    | .ok st' => (.ok (), st')
    | .error e => if missing_ok then (.ok (), st) else (.error e, st)

/-- `R2Storage.open_stream`: resolves the key and fetches the object body,
propagating any retrieval failure. -/
def open_stream (ctx : Ctx) (key : Str) (st : St) : Except Err Body × St :=
  match resolve_key ctx key with
  | .error e => (.error e, st)
  | .ok r2 =>
    match s3Get ctx st r2 with
    | .error e => (.error e, st)
    | .ok o => (.ok o.body, st)

/-- `R2Storage.update_metadata`: resolves the key, reads current metadata by
passing the resolved key back through `get_object_info` (which resolves again),
merges or replaces, then performs the same-key metadata-replace copy and
re-reads the info. -/
def update_metadata (ctx : Ctx) (key : Str) (metadata : List (Str × Str))
    (merge : Bool) (st : St) : Except Err StoredObjectInfo × St :=
  match resolve_key ctx key with
  | .error e => (.error e, st)
  | .ok r2 =>
    match get_object_info ctx r2 st with
    | (.error e, st1) => (.error e, st1)
    | (.ok info, st1) =>
      let current : List (Str × Str) := (info.bind (fun i => i.metadata)).getD []
      let newMeta := if merge then dictUnion current metadata else metadata
      match s3CopyReplaceMeta ctx st1 r2 newMeta
          (info.bind (fun i => i.content_type)) with
      | .error e => (.error e, st1)
      | .ok st2 =>
        match get_object_info ctx r2 st2 with
        | (.error e, st3) => (.error e, st3)
        | (.ok (some i), st3) => (.ok i, st3)
        | (.ok none, st3) =>
          (.ok { key := r2, size_bytes := none, checksum := none,
                 content_type := none, metadata := some newMeta }, st3)

/-- `R2Storage.get_object_status`: `AVAILABLE` when `object_exists`, else
`NOT_FOUND`. -/
def get_object_status (ctx : Ctx) (key : Str) (st : St) :
    Except Err ObjectStatus × St :=
  match object_exists ctx key st with
  | (.error e, st1) => (.error e, st1)
  | (.ok true, st1) => (.ok .available, st1)
  | (.ok false, st1) => (.ok .not_found, st1)

/-- `R2Storage.build_url`: resolves the key; with a truthy `expires_in` tries
to sign (returning `none` on any signing failure); otherwise builds a public
URL when a public base URL is configured, else `none`. -/
def build_url (ctx : Ctx) (key : Str) (expires_in : Option Nat) (st : St) :
    Except Err (Option Str) × St :=
  match resolve_key ctx key with
  | .error e => (.error e, st)
  | .ok r2 =>
    let pub : Except Err (Option Str) × St :=
      match ctx.publicBaseUrl with
      | some b =>
        if b = [] then (.ok none, st)
        else (.ok (some (pyRstrip b ++ '/' :: r2)), st)
      | none => (.ok none, st)
    match expires_in with
    | some n =>
      if n = 0 then pub
      else if ctx.signFails then (.ok none, st)
      else (.ok (some (presignUrl r2 n)), st)
    | none => pub

/-- `R2Storage.create_presigned_post`: resolves the key and generates the
form-field bundle (opaque here, represented by the presigned token), returning
`none` on any signing failure. The passthrough `conditions`/`fields` arguments
are opaque to the module and omitted. -/
def create_presigned_post (ctx : Ctx) (key : Str) (expires_in : Nat) (st : St) :
    Except Err (Option Str) × St :=
  match resolve_key ctx key with
  | .error e => (.error e, st)
  | .ok r2 =>
    if ctx.signFails then (.ok none, st)
    else (.ok (some (presignUrl r2 expires_in)), st)

/-- `R2Storage._put_json`: serialise the payload and upload it with content
type `application/json` and `overwrite` left at its default of true. -/
def put_json (ctx : Ctx) (key : Str) (payload : Body) (metadata : List (Str × Str))
    (st : St) : Except Err Unit × St :=
  match upload_file ctx key payload (some (str "application/json")) metadata true st with
  | (.error e, st1) => (.error e, st1)
  | (.ok _, st1) => (.ok (), st1)

/-- `R2Storage._write_object_log`: best-effort info/status reads (these never
raise for the non-empty keys the module passes), then an upload of the log
payload to `dirname(resolve(key))/upload_log_<epoch_ms>.json` — an upload whose
failure propagates. Callers pass an already-resolved key, which this method
resolves again. -/
def write_object_log (ctx : Ctx) (key : Str) (song_id : Option Str)
    (user_id : Option Str) (st : St) : Except Err Unit × St :=
  match get_object_info ctx key st with
  | (.error e, st1) => (.error e, st1)
  | (.ok info, st1) =>
    match get_object_status ctx key st1 with
    | (.error e, st2) => (.error e, st2)
    | (.ok status, st2) =>
      match resolve_key ctx key with
      | .error e => (.error e, st2)
      | .ok r2 =>
        let entry : LogEntry :=
          { song_id := song_id, user_id := user_id,
            key := (match info with | some i => i.key | none => r2),
            status := status.val,
            size_bytes := (match info with | some i => i.size_bytes | none => none),
            content_type := (match info with | some i => i.content_type | none => none),
            checksum := (match info with | some i => i.checksum | none => none),
            timestamp := ctx.now }
        let log_key := pyDirname r2 ++
          '/' :: (str "upload_log_" ++ natChars (ctx.now * 1000) ++ str ".json")
        put_json ctx log_key (.logJson entry)
          [(str "song_id", (match song_id with | some s => s | none => [])),
           (str "type", str "upload_log")] st2

/-- The `self.build_url(k, expires_in=e) or self.build_url(k)` idiom used for
every URL in the bundle operations: the second call runs only when the first
result is falsy (`None`; an empty string would also count). -/
def resolve_asset_url (ctx : Ctx) (k : Str) (e : Option Nat) (st : St) :
    Except Err (Option Str) × St :=
  match build_url ctx k e st with
  | (.error err, st1) => (.error err, st1)
  | (.ok u, st1) =>
    match u with
    | some s => if s = [] then build_url ctx k none st1 else (.ok (some s), st1)
    | none => build_url ctx k none st1

/-- The normalized prefix of a bundle operation:
`prefix.strip("/") if prefix else f"songs/{song_id}"` (Python truthiness, so an
empty prefix argument also falls back to the default). -/
def normalizedPfx (song_id : Str) (pfx : Option Str) : Str :=
  match pfx with
  | some p => if p = [] then str "songs/" ++ song_id else pyStrip p
  | none => str "songs/" ++ song_id

/-- `R2Storage.upload_media_bundle`: audio (then optional video, then optional
art) uploads, each followed by URL resolution; then the manifest write, the
manifest URL, and one upload-log write per uploaded asset, in source order.
Every raised error propagates with the state reached so far. -/
def upload_media_bundle (ctx : Ctx) (song_id : Str) (audio : Body)
    (audio_content_type : Option Str) (video : Option Body)
    (video_content_type : Option Str) (art : Option Body)
    (art_content_type : Option Str) (pfx : Option Str)
    (metadata : List (Str × Str)) (user_id : Option Str)
    (url_expires_in : Option Nat) (st : St) : Except Err MediaBundleResult × St :=
  if song_id = [] then (.error .missingSongId, st)
  else
    let np := normalizedPfx song_id pfx
    let audio_key := np ++ str "/audio"
    match upload_file ctx audio_key audio (some (pyOr audio_content_type (str "audio/mpeg")))
        (dictUnion metadata [(str "song_id", song_id), (str "type", str "audio")]) true st with
    | (.error e, st1) => (.error e, st1)
    | (.ok audio_up, st1) =>
      match resolve_asset_url ctx audio_up.key url_expires_in st1 with
      | (.error e, st2) => (.error e, st2)
      | (.ok audio_url, st2) =>
        match (match video with
          | none => ((.ok (none, none) : Except Err (Option UploadResult × Option Str)), st2)
          | some v =>
            match upload_file ctx (np ++ str "/video") v
                (some (pyOr video_content_type (str "video/mp4")))
                (dictUnion metadata [(str "song_id", song_id), (str "type", str "video")])
                true st2 with
            | (.error e, st3) => (.error e, st3)
            | (.ok vu, st3) =>
              match resolve_asset_url ctx vu.key url_expires_in st3 with
              | (.error e, st4) => (.error e, st4)
              | (.ok vurl, st4) => (.ok (some vu, vurl), st4)) with
        | (.error e, st3) => (.error e, st3)
        | (.ok (video_up, video_url), st3) =>
          match (match art with
            | none => ((.ok (none, none) : Except Err (Option UploadResult × Option Str)), st3)
            | some a =>
              match upload_file ctx (np ++ str "/art") a
                  (some (pyOr art_content_type (str "image/jpeg")))
                  (dictUnion metadata [(str "song_id", song_id), (str "type", str "art")])
                  true st3 with
              | (.error e, st4) => (.error e, st4)
              | (.ok au, st4) =>
                match resolve_asset_url ctx au.key url_expires_in st4 with
                | (.error e, st5) => (.error e, st5)
                | (.ok aurl, st5) => (.ok (some au, aurl), st5)) with
          | (.error e, st4) => (.error e, st4)
          | (.ok (art_up, art_url), st4) =>
            let manifest : Manifest :=
              { song_id := song_id, uploaded_at := some ctx.now, bucket := ctx.bucket,
                pfx := np,
                links_audio := audio_url, links_video := video_url, links_art := art_url,
                keys_audio := some audio_up.key,
                keys_video := (match video_up with | some u => some u.key | none => none),
                keys_art := (match art_up with | some u => some u.key | none => none),
                metadata := metadata, uploader_id := user_id,
                versions_audio := audio_up.version_id,
                versions_video := (match video_up with | some u => u.version_id | none => none),
                versions_art := (match art_up with | some u => u.version_id | none => none),
                etags_audio := audio_up.etag,
                etags_video := (match video_up with | some u => u.etag | none => none),
                etags_art := (match art_up with | some u => u.etag | none => none) }
            let manifest_key := np ++ str "/manifest.json"
            match put_json ctx manifest_key (.manifestJson manifest)
                [(str "song_id", song_id), (str "type", str "manifest")] st4 with
            | (.error e, st5) => (.error e, st5)
            | (.ok _, st5) =>
              match resolve_asset_url ctx manifest_key url_expires_in st5 with
              | (.error e, st6) => (.error e, st6)
              | (.ok manifest_url, st6) =>
                match write_object_log ctx audio_up.key (some song_id) user_id st6 with
                | (.error e, st7) => (.error e, st7)
                | (.ok _, st7) =>
                  match (match video_up with
                    | some vu => write_object_log ctx vu.key (some song_id) user_id st7
                    | none => (.ok (), st7)) with
                  | (.error e, st8) => (.error e, st8)
                  | (.ok _, st8) =>
                    match (match art_up with
                      | some au => write_object_log ctx au.key (some song_id) user_id st8
                      | none => (.ok (), st8)) with
                    | (.error e, st9) => (.error e, st9)
                    | (.ok _, st9) =>
                      (.ok { song_id := song_id,
                             audio_key := some audio_up.key,
                             video_key := (match video_up with | some u => some u.key | none => none),
                             art_key := (match art_up with | some u => some u.key | none => none),
                             audio_url := audio_url, video_url := video_url,
                             art_url := art_url,
                             manifest_key := manifest_key,
                             manifest_url := manifest_url }, st9)

/-- The three asset slots accepted by `replace_media_asset`. -/
inductive Asset where
  | audio
  | video
  | art
  deriving DecidableEq

/-- The slot's name as a string. -/
def Asset.toStr : Asset → Str
  | .audio => str "audio"
  | .video => str "video"
  | .art => str "art"

/-- The fresh manifest dictionary `replace_media_asset` synthesises when the
stored manifest cannot be read or parsed (keys it does not mention are absent,
hence `none`). -/
def freshManifest (ctx : Ctx) (song_id np : Str) : Manifest :=
  { song_id := song_id, uploaded_at := none, bucket := ctx.bucket, pfx := np,
    links_audio := none, links_video := none, links_art := none,
    keys_audio := none, keys_video := none, keys_art := none,
    metadata := [], uploader_id := none,
    versions_audio := none, versions_video := none, versions_art := none,
    etags_audio := none, etags_video := none, etags_art := none }

/-- `R2Storage.replace_media_asset`: upload the one asset (overwriting), read
the manifest back (synthesising a fresh one on any failure, including a stored
body that is not a manifest), update the replaced slot, the timestamp and any
supplied metadata/uploader, persist the manifest, write one upload log, and
build the result from the manifest's current slot values. -/
def replace_media_asset (ctx : Ctx) (song_id : Str) (asset : Asset) (file : Body)
    (content_type : Option Str) (metadata : List (Str × Str)) (user_id : Option Str)
    (pfx : Option Str) (url_expires_in : Option Nat) (st : St) :
    Except Err MediaBundleResult × St :=
  let np := normalizedPfx song_id pfx
  let key := np ++ '/' :: asset.toStr
  match upload_file ctx key file content_type
      (dictUnion metadata [(str "song_id", song_id), (str "type", asset.toStr)]) true st with
  | (.error e, st1) => (.error e, st1)
  | (.ok up, st1) =>
    let manifest_key := np ++ str "/manifest.json"
    let m0 : Manifest :=
      match open_stream ctx manifest_key st1 with
      | (.ok (Body.manifestJson m), _) => m
      | _ => freshManifest ctx song_id np
    match resolve_asset_url ctx up.key url_expires_in st1 with
    | (.error e, st2) => (.error e, st2)
    | (.ok aurl, st2) =>
      let m1 :=
        match asset with
        | .audio => { m0 with keys_audio := some up.key, links_audio := aurl }
        | .video => { m0 with keys_video := some up.key, links_video := aurl }
        | .art => { m0 with keys_art := some up.key, links_art := aurl }
      let m2 := { m1 with uploaded_at := some ctx.now }
      let m3 := if metadata = [] then m2
        else { m2 with metadata := dictUnion m2.metadata metadata }
      let m4 :=
        match user_id with
        | some u => if u = [] then m3 else { m3 with uploader_id := some u }
        | none => m3
      match put_json ctx manifest_key (.manifestJson m4)
          [(str "song_id", song_id), (str "type", str "manifest")] st2 with
      | (.error e, st3) => (.error e, st3)
      | (.ok _, st3) =>
        match write_object_log ctx up.key (some song_id) user_id st3 with
        | (.error e, st4) => (.error e, st4)
        | (.ok _, st4) =>
          match resolve_asset_url ctx manifest_key url_expires_in st4 with
          | (.error e, st5) => (.error e, st5)
          | (.ok murl, st5) =>
            (.ok { song_id := song_id,
                   audio_key := m4.keys_audio, video_key := m4.keys_video,
                   art_key := m4.keys_art,
                   audio_url := m4.links_audio, video_url := m4.links_video,
                   art_url := m4.links_art,
                   manifest_key := manifest_key, manifest_url := murl }, st5)

/-! ### Support lemmas about the string model -/

/-- The resolved form of a non-empty logical key, as `resolve_key` computes it. -/
def resolvedOf (ctx : Ctx) (key : Str) : Str :=
  if ctx.base_path = [] then pyLstrip key else ctx.base_path ++ '/' :: pyLstrip key

theorem resolve_key_eq (ctx : Ctx) (key : Str) (h : key ≠ []) :
    resolve_key ctx key = .ok (resolvedOf ctx key) := by
  unfold resolve_key resolvedOf
  by_cases hb : ctx.base_path = [] <;> simp [h, hb]

theorem resolve_key_inv {ctx : Ctx} {key r : Str}
    (h : resolve_key ctx key = .ok r) : key ≠ [] ∧ r = resolvedOf ctx key := by
  by_cases hk : key = []
  · rw [hk] at h; simp [resolve_key] at h
  · rw [resolve_key_eq ctx key hk] at h
    exact ⟨hk, (Except.ok.inj h).symm⟩

theorem pyLstrip_idem (s : Str) : pyLstrip (pyLstrip s) = pyLstrip s := by
  unfold pyLstrip
  exact List.dropWhile_idempotent _ _

theorem pyLstrip_of_head_ne {s : Str} (h : ∀ c, s.head? = some c → c ≠ '/') :
    pyLstrip s = s := by
  cases s with
  | nil => rfl
  | cons c t =>
    have hc : c ≠ '/' := h c rfl
    simp [pyLstrip, List.dropWhile_cons, hc]

theorem find_cons (k : Str) (v : S3Object) (st : St) (q : Str) :
    find ((k, v) :: st) q = if k = q then some v else find st q := rfl

theorem find_cons_ne {k q : Str} (v : S3Object) (st : St) (h : k ≠ q) :
    find ((k, v) :: st) q = find st q := by
  rw [find_cons, if_neg h]

theorem find_filter_erase (st : St) (k : Str) :
    find (st.filter (fun p => ¬ (p.1 = k))) k = none := by
  induction st with
  | nil => rfl
  | cons hd tl ih =>
    by_cases h : hd.1 = k
    · simpa [List.filter_cons, h] using ih
    · simpa [List.filter_cons, h, find, Prod.ext_iff] using ih

/-- `takeWhile` never runs past an element that fails the predicate. -/
theorem takeWhile_append_cons_neg {α : Type} (p : α → Bool) (l₁ : List α) (a : α)
    (l₂ : List α) (h : p a = false) :
    (l₁ ++ a :: l₂).takeWhile p = l₁.takeWhile p := by
  induction l₁ with
  | nil => simp [List.takeWhile_cons, h]
  | cons b t ih =>
    by_cases hb : p b <;> simp [List.takeWhile_cons, hb, ih]

theorem takeWhile_all {α : Type} (p : α → Bool) (l : List α)
    (h : ∀ a ∈ l, p a = true) : l.takeWhile p = l :=
  List.takeWhile_eq_self_iff.mpr h

theorem lastComp_append_slash (x c : Str) : lastComp (x ++ '/' :: c) = lastComp c := by
  unfold lastComp
  have hrev : (x ++ '/' :: c).reverse = c.reverse ++ '/' :: x.reverse := by
    rw [List.reverse_append, List.reverse_cons, List.append_assoc, List.singleton_append]
  rw [hrev, takeWhile_append_cons_neg _ c.reverse '/' x.reverse (by simp)]

theorem lastComp_noslash {c : Str} (h : '/' ∉ c) : lastComp c = c := by
  unfold lastComp
  rw [takeWhile_all _ c.reverse (by
    intro a ha
    have : a ∈ c := List.mem_reverse.mp ha
    simp only [decide_eq_true_eq]
    exact fun hac => h (hac ▸ this)), List.reverse_reverse]

theorem lastComp_pyLstrip (s : Str) : lastComp (pyLstrip s) = lastComp s := by
  conv_rhs => rw [show s = s.takeWhile (fun c => c = '/') ++ pyLstrip s from
    (List.takeWhile_append_dropWhile (fun c => c = '/') s).symm]
  unfold lastComp
  rw [List.reverse_append]
  by_cases hp : (s.takeWhile (fun c => c = '/')).reverse = []
  · rw [hp, List.append_nil]
  · obtain ⟨a, t, hat⟩ := List.exists_cons_of_ne_nil hp
    have ha : a ∈ (s.takeWhile (fun c => c = '/')).reverse := by rw [hat]; exact List.mem_cons_self a t
    have ha' : a = '/' := by
      have := List.mem_takeWhile_imp (List.mem_reverse.mp ha)
      simpa using this
    rw [hat, ha', takeWhile_append_cons_neg _ _ '/' t (by simp)]

theorem lastComp_resolvedOf (ctx : Ctx) (key : Str) :
    lastComp (resolvedOf ctx key) = lastComp key := by
  unfold resolvedOf
  by_cases hb : ctx.base_path = []
  · rw [if_pos hb, lastComp_pyLstrip]
  · rw [if_neg hb, lastComp_append_slash, lastComp_pyLstrip]

theorem ne_of_lastComp {a b : Str} (h : lastComp a ≠ lastComp b) : a ≠ b :=
  fun hab => h (hab ▸ rfl)

theorem digitChar_ne_slash : ∀ n, n < 10 → digitChar n ≠ '/' := by decide

theorem natCharsAux_no_slash : ∀ fuel n, '/' ∉ natCharsAux fuel n := by
  intro fuel
  induction fuel with
  | zero => intro n hm; exact absurd hm (List.not_mem_nil '/')
  | succ f ih =>
    intro n
    rw [natCharsAux]
    split
    · next h =>
      intro hm
      rcases List.mem_singleton.mp hm with hc
      exact digitChar_ne_slash n h hc.symm
    · next h =>
      intro hm
      rcases List.mem_append.mp hm with h1 | h2
      · exact ih (n / 10) h1
      · rcases List.mem_singleton.mp h2 with hc
        exact digitChar_ne_slash (n % 10) (Nat.mod_lt n (by omega)) hc.symm

theorem natChars_no_slash : ∀ n, '/' ∉ natChars n :=
  fun n => natCharsAux_no_slash (n + 1) n

/-- The final component of every upload-log key written with clock `ctx.now`. -/
def logComp (ctx : Ctx) : Str :=
  str "upload_log_" ++ natChars (ctx.now * 1000) ++ str ".json"

theorem logComp_no_slash (ctx : Ctx) : '/' ∉ logComp ctx := by
  unfold logComp
  intro hm
  rcases List.mem_append.mp hm with h1 | h2
  · rcases List.mem_append.mp h1 with ha | hb
    · revert ha; decide
    · exact natChars_no_slash _ hb
  · revert h2; decide

theorem logComp_head (ctx : Ctx) :
    logComp ctx = 'u' :: (str "pload_log_" ++ natChars (ctx.now * 1000) ++ str ".json") := rfl

theorem logComp_ne_manifest (ctx : Ctx) : logComp ctx ≠ str "manifest.json" := by
  rw [logComp_head]
  intro h
  exact absurd (List.cons.inj h).1 (by decide)

theorem logComp_ne_audio (ctx : Ctx) : logComp ctx ≠ str "audio" := by
  rw [logComp_head]
  intro h
  exact absurd (List.cons.inj h).1 (by decide)

theorem logComp_ne_video (ctx : Ctx) : logComp ctx ≠ str "video" := by
  rw [logComp_head]
  intro h
  exact absurd (List.cons.inj h).1 (by decide)

theorem logComp_ne_art (ctx : Ctx) : logComp ctx ≠ str "art" := by
  rw [logComp_head]
  intro h
  exact absurd (List.cons.inj h).1 (by decide)

/-! ### Characterisation and inversion lemmas for the façade operations -/

theorem object_exists_state (ctx : Ctx) (key : Str) (st : St) :
    (object_exists ctx key st).2 = st := by
  unfold object_exists
  split
  · rfl
  · split <;> rfl

theorem object_exists_noerr (ctx : Ctx) (key : Str) (st : St) (h : key ≠ []) :
    ∃ b, object_exists ctx key st = (.ok b, st) := by
  unfold object_exists
  rw [resolve_key_eq ctx key h]
  cases hh : s3Head ctx st (resolvedOf ctx key) with
  | ok o => exact ⟨true, by simp [hh]⟩
  | error e => exact ⟨false, by simp [hh]⟩

theorem get_object_info_noerr (ctx : Ctx) (key : Str) (st : St) (h : key ≠ []) :
    ∃ i, get_object_info ctx key st = (.ok i, st) := by
  unfold get_object_info
  rw [resolve_key_eq ctx key h]
  cases hh : s3Head ctx st (resolvedOf ctx key) with
  | ok o =>
    refine ⟨some ⟨resolvedOf ctx key, some o.body.size, none, o.contentType,
      if o.metadata = [] then none else some o.metadata⟩, ?_⟩
    simp [hh]
  | error e => exact ⟨none, by simp [hh]⟩

theorem get_object_info_found (ctx : Ctx) (key : Str) (st : St) (o : S3Object)
    (hk : key ≠ []) (hretr : ctx.retrFails (resolvedOf ctx key) = false)
    (hfind : find st (resolvedOf ctx key) = some o) :
    get_object_info ctx key st =
      (.ok (some ⟨resolvedOf ctx key, some o.body.size, none, o.contentType,
        if o.metadata = [] then none else some o.metadata⟩), st) := by
  unfold get_object_info
  rw [resolve_key_eq ctx key hk]
  simp [s3Head, hretr, hfind]

theorem metaRoundtrip (m : List (Str × Str)) :
    Option.getD (if m = [] then none else some m) [] = m := by
  by_cases hm : m = [] <;> simp [hm]

theorem get_object_status_noerr (ctx : Ctx) (key : Str) (st : St) (h : key ≠ []) :
    ∃ s, get_object_status ctx key st = (.ok s, st) := by
  unfold get_object_status
  obtain ⟨b, hb⟩ := object_exists_noerr ctx key st h
  rw [hb]
  cases b with
  | true => exact ⟨.available, rfl⟩
  | false => exact ⟨.not_found, rfl⟩

theorem build_url_noerr (ctx : Ctx) (key : Str) (e : Option Nat) (st : St)
    (h : key ≠ []) : ∃ u, build_url ctx key e st = (.ok u, st) := by
  unfold build_url
  rw [resolve_key_eq ctx key h]
  cases e with
  | none =>
    cases hp : ctx.publicBaseUrl with
    | none => exact ⟨none, rfl⟩
    | some b => by_cases hb : b = [] <;> simp [hb]
  | some n =>
    by_cases hn : n = 0
    · subst hn
      cases hp : ctx.publicBaseUrl with
      | none => exact ⟨none, by simp⟩
      | some b => by_cases hb : b = [] <;> simp [hb]
    · by_cases hs : ctx.signFails <;> simp [hn, hs]

theorem resolve_asset_url_noerr (ctx : Ctx) (k : Str) (e : Option Nat) (st : St)
    (h : k ≠ []) : ∃ u, resolve_asset_url ctx k e st = (.ok u, st) := by
  unfold resolve_asset_url
  obtain ⟨u, hu⟩ := build_url_noerr ctx k e st h
  rw [hu]
  cases u with
  | none =>
    obtain ⟨u2, hu2⟩ := build_url_noerr ctx k none st h
    exact ⟨u2, by simp [hu2]⟩
  | some s =>
    by_cases hs : s = []
    · obtain ⟨u2, hu2⟩ := build_url_noerr ctx k none st h
      exact ⟨u2, by simp [hs, hu2]⟩
    · exact ⟨some s, by simp [hs]⟩

theorem upload_file_true_ok (ctx : Ctx) (key : Str) (b : Body) (ct : Option Str)
    (md : List (Str × Str)) (st : St) (hk : key ≠ [])
    (hput : ctx.putFails (resolvedOf ctx key) = false) :
    ∃ o, upload_file ctx key b ct md true st =
        (.ok ⟨resolvedOf ctx key, none, none⟩, (resolvedOf ctx key, o) :: st) ∧
      o.body = b ∧ o.metadata = md := by
  unfold upload_file
  rw [resolve_key_eq ctx key hk]
  refine ⟨⟨b, optTruthy
    (match optTruthy ct with | none => ctx.guessMime key | some c => some c),
    md⟩, ?_, rfl, rfl⟩
  simp [s3Put, hput]

theorem upload_file_true_fail (ctx : Ctx) (key : Str) (b : Body) (ct : Option Str)
    (md : List (Str × Str)) (st : St) (hk : key ≠ [])
    (hput : ctx.putFails (resolvedOf ctx key) = true) :
    upload_file ctx key b ct md true st = (.error .clientErr, st) := by
  unfold upload_file
  rw [resolve_key_eq ctx key hk]
  simp [s3Put, hput]

theorem upload_file_true_inv {ctx : Ctx} {key : Str} {b : Body} {ct : Option Str}
    {md : List (Str × Str)} {st st' : St} {u : UploadResult}
    (h : upload_file ctx key b ct md true st = (.ok u, st')) :
    key ≠ [] ∧ u.key = resolvedOf ctx key ∧ ctx.putFails (resolvedOf ctx key) = false ∧
      ∃ o, st' = (resolvedOf ctx key, o) :: st ∧ o.body = b ∧ o.metadata = md := by
  by_cases hk : key = []
  · subst hk
    unfold upload_file resolve_key at h
    simp at h
  · rw [upload_file] at h
    rw [resolve_key_eq ctx key hk] at h
    by_cases hput : ctx.putFails (resolvedOf ctx key) = true
    · simp only [s3Put, hput] at h
      simp at h
    · rw [Bool.not_eq_true] at hput
      simp only [s3Put, hput] at h
      simp only [Bool.false_eq_true, if_false] at h
      obtain ⟨h1, h2⟩ := Prod.mk.inj (h :)
      refine ⟨hk, ?_, hput, ⟨_, h2.symm, rfl, rfl⟩⟩
      rw [← (Except.ok.inj h1)]

theorem put_json_ok (ctx : Ctx) (key : Str) (payload : Body)
    (md : List (Str × Str)) (st : St) (hk : key ≠ [])
    (hput : ctx.putFails (resolvedOf ctx key) = false) :
    ∃ o, put_json ctx key payload md st = (.ok (), (resolvedOf ctx key, o) :: st) ∧
      o.body = payload ∧ o.metadata = md := by
  unfold put_json
  obtain ⟨o, ho, hb, hm⟩ := upload_file_true_ok ctx key payload
    (some (str "application/json")) md st hk hput
  rw [ho]
  exact ⟨o, rfl, hb, hm⟩

theorem put_json_fail (ctx : Ctx) (key : Str) (payload : Body)
    (md : List (Str × Str)) (st : St) (hk : key ≠ [])
    (hput : ctx.putFails (resolvedOf ctx key) = true) :
    put_json ctx key payload md st = (.error .clientErr, st) := by
  unfold put_json
  rw [upload_file_true_fail ctx key payload (some (str "application/json")) md st hk hput]

theorem put_json_inv {ctx : Ctx} {key : Str} {payload : Body}
    {md : List (Str × Str)} {st st' : St}
    (h : put_json ctx key payload md st = (.ok (), st')) :
    key ≠ [] ∧ ∃ o, st' = (resolvedOf ctx key, o) :: st ∧ o.body = payload := by
  unfold put_json at h
  cases hu : upload_file ctx key payload (some (str "application/json")) md true st with
  | mk r st1 =>
    rw [hu] at h
    cases r with
    | error e => simp at h
    | ok u =>
      obtain ⟨hk, _, _, o, hst, hb, _⟩ := upload_file_true_inv hu
      simp only at h
      obtain ⟨-, h2⟩ := Prod.mk.inj (h :)
      exact ⟨hk, o, h2 ▸ hst, hb⟩

/-- The wire key an upload-log write for `key` lands on: the log's logical key
is built from the once-more-resolved input key, and uploading resolves it yet
again. -/
def logPutKey (ctx : Ctx) (key : Str) : Str :=
  resolvedOf ctx (pyDirname (resolvedOf ctx key) ++ '/' :: logComp ctx)

theorem lastComp_suffix_resolved (ctx : Ctx) (x c : Str) (hc : '/' ∉ c) :
    lastComp (resolvedOf ctx (x ++ '/' :: c)) = c := by
  rw [lastComp_resolvedOf, lastComp_append_slash, lastComp_noslash hc]

theorem lastComp_logPutKey (ctx : Ctx) (key : Str) :
    lastComp (logPutKey ctx key) = logComp ctx :=
  lastComp_suffix_resolved ctx _ _ (logComp_no_slash ctx)

theorem write_object_log_ok (ctx : Ctx) (key : Str) (sid uid : Option Str)
    (st : St) (hk : key ≠ []) (hput : ctx.putFails (logPutKey ctx key) = false) :
    ∃ o, write_object_log ctx key sid uid st = (.ok (), (logPutKey ctx key, o) :: st) ∧
      ∃ entry, o.body = .logJson entry := by
  unfold write_object_log
  obtain ⟨i, hi⟩ := get_object_info_noerr ctx key st hk
  rw [hi]
  obtain ⟨s, hs⟩ := get_object_status_noerr ctx key st hk
  simp only []
  rw [hs]
  simp only []
  rw [resolve_key_eq ctx key hk]
  simp only []
  have hlk : (pyDirname (resolvedOf ctx key) ++
      '/' :: (str "upload_log_" ++ natChars (ctx.now * 1000) ++ str ".json")) ≠ [] := by
    simp
  obtain ⟨o, ho, hb, -⟩ := put_json_ok ctx _ _ _ st hlk hput
  rw [ho]
  exact ⟨o, rfl, _, hb⟩

theorem write_object_log_fail (ctx : Ctx) (key : Str) (sid uid : Option Str)
    (st : St) (hk : key ≠ []) (hput : ctx.putFails (logPutKey ctx key) = true) :
    write_object_log ctx key sid uid st = (.error .clientErr, st) := by
  unfold write_object_log
  obtain ⟨i, hi⟩ := get_object_info_noerr ctx key st hk
  rw [hi]
  obtain ⟨s, hs⟩ := get_object_status_noerr ctx key st hk
  simp only []
  rw [hs]
  simp only []
  rw [resolve_key_eq ctx key hk]
  simp only []
  have hlk : (pyDirname (resolvedOf ctx key) ++
      '/' :: (str "upload_log_" ++ natChars (ctx.now * 1000) ++ str ".json")) ≠ [] := by
    simp
  rw [put_json_fail ctx _ _ _ st hlk hput]

theorem write_object_log_inv {ctx : Ctx} {key : Str} {sid uid : Option Str}
    {st st' : St} (h : write_object_log ctx key sid uid st = (.ok (), st')) :
    ∃ o, st' = (logPutKey ctx key, o) :: st := by
  by_cases hk : key = []
  · subst hk
    unfold write_object_log get_object_info resolve_key at h
    simp at h
  · by_cases hput : ctx.putFails (logPutKey ctx key) = true
    · rw [write_object_log_fail ctx key sid uid st hk hput] at h
      simp at h
    · rw [Bool.not_eq_true] at hput
      obtain ⟨o, ho, -⟩ := write_object_log_ok ctx key sid uid st hk hput
      rw [ho] at h
      obtain ⟨-, h2⟩ := Prod.mk.inj (h :)
      exact ⟨o, h2.symm⟩

/-! ### Key-shape helpers for the orchestrator operations -/

/-- The logical key of one asset slot, `{prefix}/{asset}`. -/
def assetKeyOf (song_id : Str) (pfx : Option Str) (asset : Asset) : Str :=
  normalizedPfx song_id pfx ++ '/' :: asset.toStr

/-- The logical manifest key, `{prefix}/manifest.json`. -/
def manifestKeyOf (song_id : Str) (pfx : Option Str) : Str :=
  normalizedPfx song_id pfx ++ str "/manifest.json"

theorem append_str_ne_nil (x : Str) (s : String) (hs : str s ≠ []) :
    x ++ str s ≠ [] := by
  intro h
  rcases List.append_eq_nil.mp h with ⟨-, h2⟩
  exact hs h2

theorem assetKeyOf_ne_nil (song_id : Str) (pfx : Option Str) (asset : Asset) :
    assetKeyOf song_id pfx asset ≠ [] := by
  unfold assetKeyOf
  simp

theorem manifestKeyOf_ne_nil (song_id : Str) (pfx : Option Str) :
    manifestKeyOf song_id pfx ≠ [] :=
  append_str_ne_nil _ _ (by decide)

theorem Asset.toStr_no_slash (asset : Asset) : '/' ∉ asset.toStr := by
  cases asset <;> decide

theorem Asset.toStr_ne_nil (asset : Asset) : asset.toStr ≠ [] := by
  cases asset <;> decide

theorem resolved_suffix_ne_nil (ctx : Ctx) (x c : Str) (hc : '/' ∉ c)
    (hc0 : c ≠ []) : resolvedOf ctx (x ++ '/' :: c) ≠ [] := by
  intro h
  have hl := lastComp_suffix_resolved ctx x c hc
  rw [h] at hl
  exact hc0 (hl.symm.trans (show lastComp ([] : Str) = [] from rfl))

theorem resolved_assetKey_ne_nil (ctx : Ctx) (song_id : Str) (pfx : Option Str)
    (asset : Asset) : resolvedOf ctx (assetKeyOf song_id pfx asset) ≠ [] :=
  resolved_suffix_ne_nil ctx _ _ (Asset.toStr_no_slash asset) (Asset.toStr_ne_nil asset)

theorem lastComp_resolved_manifestKey (ctx : Ctx) (song_id : Str) (pfx : Option Str) :
    lastComp (resolvedOf ctx (manifestKeyOf song_id pfx)) = str "manifest.json" := by
  unfold manifestKeyOf
  rw [show str "/manifest.json" = '/' :: str "manifest.json" from rfl]
  exact lastComp_suffix_resolved ctx _ _ (by decide)

theorem lastComp_resolved_assetKey (ctx : Ctx) (song_id : Str) (pfx : Option Str)
    (asset : Asset) :
    lastComp (resolvedOf ctx (assetKeyOf song_id pfx asset)) = asset.toStr := by
  unfold assetKeyOf
  exact lastComp_suffix_resolved ctx _ _ (Asset.toStr_no_slash asset)

theorem resolved_manifestKey_ne_nil (ctx : Ctx) (song_id : Str) (pfx : Option Str) :
    resolvedOf ctx (manifestKeyOf song_id pfx) ≠ [] := by
  unfold manifestKeyOf
  rw [show str "/manifest.json" = '/' :: str "manifest.json" from rfl]
  exact resolved_suffix_ne_nil ctx _ _ (by decide) (by decide)

theorem resolved_asset_ne_manifest (ctx : Ctx) (song_id : Str) (pfx : Option Str)
    (asset : Asset) :
    resolvedOf ctx (assetKeyOf song_id pfx asset) ≠
      resolvedOf ctx (manifestKeyOf song_id pfx) := by
  apply ne_of_lastComp
  rw [lastComp_resolved_assetKey, lastComp_resolved_manifestKey]
  cases asset <;> decide

theorem logPut_ne_resolved_manifest (ctx : Ctx) (k : Str) (song_id : Str)
    (pfx : Option Str) :
    logPutKey ctx k ≠ resolvedOf ctx (manifestKeyOf song_id pfx) := by
  apply ne_of_lastComp
  rw [lastComp_logPutKey, lastComp_resolved_manifestKey]
  exact logComp_ne_manifest ctx

theorem open_stream_found (ctx : Ctx) (key : Str) (st : St) (o : S3Object)
    (hk : key ≠ []) (hretr : ctx.retrFails (resolvedOf ctx key) = false)
    (hfind : find st (resolvedOf ctx key) = some o) :
    open_stream ctx key st = (.ok o.body, st) := by
  unfold open_stream
  rw [resolve_key_eq ctx key hk]
  simp [s3Get, hretr, hfind]

/-! ### Further key inequalities, for claim C1 -/

theorem resolved_asset_ne_logPut (ctx : Ctx) (song_id : Str) (pfx : Option Str)
    (asset : Asset) (k : Str) :
    resolvedOf ctx (assetKeyOf song_id pfx asset) ≠ logPutKey ctx k := by
  apply ne_of_lastComp
  rw [lastComp_resolved_assetKey, lastComp_logPutKey]
  cases asset
  · exact Ne.symm (logComp_ne_audio ctx)
  · exact Ne.symm (logComp_ne_video ctx)
  · exact Ne.symm (logComp_ne_art ctx)

theorem resolved_manifest_ne_logPut (ctx : Ctx) (song_id : Str) (pfx : Option Str)
    (k : Str) :
    resolvedOf ctx (manifestKeyOf song_id pfx) ≠ logPutKey ctx k := by
  apply ne_of_lastComp
  rw [lastComp_resolved_manifestKey, lastComp_logPutKey]
  exact Ne.symm (logComp_ne_manifest ctx)

theorem resolved_asset_ne_asset (ctx : Ctx) (song_id : Str) (pfx : Option Str)
    {a b : Asset} (hne : a ≠ b) :
    resolvedOf ctx (assetKeyOf song_id pfx a) ≠
      resolvedOf ctx (assetKeyOf song_id pfx b) := by
  apply ne_of_lastComp
  rw [lastComp_resolved_assetKey, lastComp_resolved_assetKey]
  revert hne
  cases a <;> cases b <;> decide

/-! ### Concrete configurations and objects used by examples -/

/-- A provider with no base path, a public base URL, and a fully healthy
transport. -/
def emptyBaseCtx : Ctx :=
  ⟨str "bucket", str "", some (str "https://cdn.example"), fun _ => none,
   fun _ => false, fun _ => false, fun _ => false, false, 5⟩

/-- The same provider configured with base path `p`. -/
def pBaseCtx : Ctx :=
  ⟨str "bucket", str "p", some (str "https://cdn.example"), fun _ => none,
   fun _ => false, fun _ => false, fun _ => false, false, 5⟩

/-- A provider whose transport fails every HEAD/GET and every signing request
(e.g. revoked credentials). -/
def failCtx : Ctx :=
  ⟨str "bucket", str "", some (str "https://cdn.example"), fun _ => none,
   fun _ => false, fun _ => true, fun _ => false, true, 5⟩

/-- A plain stored object. -/
def sampleObj : S3Object := ⟨.raw [1], none, []⟩

/-! ### Claim C5 — key resolution -/

/-- Leading-slash removal, written independently for the amended statement. -/
def specDropLeadSlash : Str → Str
  | [] => []
  | c :: t => if c = '/' then specDropLeadSlash t else c :: t

/-- The claim's `trim(logicalKey, "/")`: slashes removed from BOTH ends
(written from the claim's words, for comparison with the source). -/
def specTrimBoth (s : Str) : Str :=
  (specDropLeadSlash ((specDropLeadSlash s).reverse)).reverse

/-- The resolver exactly as claim C5 words it. -/
def resolveClaimC5 (basePath key : Str) : Except Err Str :=
  if key = [] then .error .invalidKey
  else if basePath ≠ [] then .ok (basePath ++ '/' :: specTrimBoth key)
  else .ok (specTrimBoth key)

theorem specDropLeadSlash_eq_pyLstrip (s : Str) : specDropLeadSlash s = pyLstrip s := by
  induction s with
  | nil => rfl
  | cons c t ih =>
    by_cases hc : c = '/'
    · simpa [specDropLeadSlash, pyLstrip, List.dropWhile_cons, hc] using ih
    · simp [specDropLeadSlash, pyLstrip, List.dropWhile_cons, hc]

/-- C5 counterexample: with base path `p` and logical key `"a/"`, the code
keeps the trailing slash (`p/a/`), while the claim's both-ends trim demands
`p/a` — the two disagree. -/
theorem c5_counterexample :
    resolve_key pBaseCtx (str "a/") = .ok (str "p/a/") ∧
    resolveClaimC5 pBaseCtx.base_path (str "a/") = .ok (str "p/a") ∧
    (str "p/a/" : Str) ≠ str "p/a" :=
  ⟨rfl, rfl, by decide⟩

/-- C5 (amended): `resolve` is a pure function of the base path and logical
key; it fails with `InvalidKey` exactly when the logical key is empty; for a
non-empty key the result joins the configured base path (when non-empty) with
the logical key stripped of LEADING slashes only. -/
theorem c5_resolve_characterisation (ctx : Ctx) (key : Str) :
    (resolve_key ctx key = .error .invalidKey ↔ key = []) ∧
    (key ≠ [] → ctx.base_path ≠ [] →
      resolve_key ctx key = .ok (ctx.base_path ++ '/' :: specDropLeadSlash key)) ∧
    (key ≠ [] → ctx.base_path = [] →
      resolve_key ctx key = .ok (specDropLeadSlash key)) := by
  refine ⟨⟨fun h => ?_, fun h => by simp [resolve_key, h]⟩, fun hk hb => ?_, fun hk hb => ?_⟩
  · by_contra hk
    rw [resolve_key_eq ctx key hk] at h
    exact Except.noConfusion h
  · rw [resolve_key_eq ctx key hk, specDropLeadSlash_eq_pyLstrip]
    unfold resolvedOf
    rw [if_neg hb]
  · rw [resolve_key_eq ctx key hk, specDropLeadSlash_eq_pyLstrip]
    unfold resolvedOf
    rw [if_pos hb]

/-- C5 witness: the spec's own §8 example, `resolve("/a/b")` under base path
`p`, evaluated through the amended theorem. -/
theorem c5_witness :
    resolve_key pBaseCtx (str "/a/b") =
      .ok (pBaseCtx.base_path ++ '/' :: specDropLeadSlash (str "/a/b")) :=
  (c5_resolve_characterisation pBaseCtx (str "/a/b")).2.1 (by decide) (by decide)

/-! ### Claim C10 — empty key raises before any degrade-to-absent handling -/

/-- C10: with the empty logical key, every operation that resolves its key —
including the never-raising queries `object_exists`, `get_object_info`,
`get_object_status`, `build_url` and `create_presigned_post` — raises the
`InvalidKey` error instead of returning false/absent, because resolution runs
before the failure-swallowing handlers. -/
theorem c10_empty_key_raises (ctx : Ctx) (st : St) (e : Option Nat) (n : Nat)
    (b : Body) (ct : Option Str) (md : List (Str × Str)) (ow mok mrg : Bool) :
    object_exists ctx [] st = (.error .invalidKey, st) ∧
    get_object_info ctx [] st = (.error .invalidKey, st) ∧
    get_object_status ctx [] st = (.error .invalidKey, st) ∧
    build_url ctx [] e st = (.error .invalidKey, st) ∧
    create_presigned_post ctx [] n st = (.error .invalidKey, st) ∧
    upload_file ctx [] b ct md ow st = (.error .invalidKey, st) ∧
    delete_object ctx [] mok st = (.error .invalidKey, st) ∧
    open_stream ctx [] st = (.error .invalidKey, st) ∧
    update_metadata ctx [] md mrg st = (.error .invalidKey, st) :=
  ⟨rfl, rfl, rfl, rfl, rfl, rfl, rfl, rfl, rfl⟩

/-! ### Claim C2 — delete semantics -/

/-- C2 counterexample: the object at (resolved) key `k` is absent, yet
`delete_object` with `missing_ok = false` succeeds instead of failing with
`NotFound`: the wire-level delete is idempotent, so no exception reaches the
`missing_ok` check. -/
theorem c2_counterexample :
    find ([] : St) (str "k") = none ∧
    delete_object emptyBaseCtx (str "k") false [] = (.ok (), []) :=
  ⟨rfl, rfl⟩

/-- C2 (amended): deletion never distinguishes absence. When the wire delete
succeeds, the object (present or not) is gone afterwards for either value of
`missing_ok`; when the wire delete fails (transport), `missing_ok = true`
swallows the failure leaving the store unchanged, and `missing_ok = false`
re-raises the client error (not a dedicated `NotFound`). -/
theorem c2_delete_characterisation (ctx : Ctx) (key : Str) (missing_ok : Bool)
    (st : St) (r : Str) (hr : resolve_key ctx key = .ok r) :
    (ctx.deleteFails r = false →
      delete_object ctx key missing_ok st =
        (.ok (), st.filter (fun p => ¬ (p.1 = r))) ∧
      find (st.filter (fun p => ¬ (p.1 = r))) r = none) ∧
    (ctx.deleteFails r = true →
      delete_object ctx key missing_ok st =
        (if missing_ok then (.ok (), st) else (.error .clientErr, st))) := by
  obtain ⟨hk, hr'⟩ := resolve_key_inv hr
  subst hr'
  constructor
  · intro hd
    unfold delete_object
    rw [resolve_key_eq ctx key hk]
    simp only [s3Delete, hd]
    exact ⟨by simp, find_filter_erase st _⟩
  · intro hd
    unfold delete_object
    rw [resolve_key_eq ctx key hk]
    simp only [s3Delete, hd]
    cases missing_ok <;> simp

/-- C2 witness: deleting the present object `k` with `missing_ok = true`
removes it. -/
theorem c2_witness :
    delete_object emptyBaseCtx (str "k") true [(str "k", sampleObj)] =
      (.ok (), List.filter (fun p => ¬ (p.1 = str "k")) [(str "k", sampleObj)]) ∧
    find (List.filter (fun p => ¬ (p.1 = str "k")) [(str "k", sampleObj)]) (str "k") = none :=
  (c2_delete_characterisation emptyBaseCtx (str "k") true
    [(str "k", sampleObj)] (str "k") rfl).1 rfl

/-! ### Claim C1 — upload-log write failures -/

/-- A provider whose transport fails exactly the PUT of the audio upload-log
key of song `s` (under no base path, with clock 5). -/
def c1ctx : Ctx :=
  ⟨str "bucket", str "", some (str "https://cdn.example"), fun _ => none,
   fun k => decide (k = str "songs/s/upload_log_5000.json"), fun _ => false,
   fun _ => false, false, 5⟩

/-- C1 counterexample: all asset uploads and the manifest write succeed, only
the upload-log write fails — yet `upload_media_bundle` RAISES (the log-write
failure is NOT swallowed), leaving the uploaded audio and manifest behind. -/
theorem c1_counterexample :
    (upload_media_bundle c1ctx (str "s") (.raw [9]) none none none none none
        none [] none (some 3600) []).1 = .error .clientErr ∧
    (find (upload_media_bundle c1ctx (str "s") (.raw [9]) none none none none
        none none [] none (some 3600) []).2 (str "songs/s/audio")).isSome = true ∧
    (find (upload_media_bundle c1ctx (str "s") (.raw [9]) none none none none
        none none [] none (some 3600) []).2
      (str "songs/s/manifest.json")).isSome = true :=
  ⟨by rfl, by rfl, by rfl⟩

set_option maxHeartbeats 1600000 in
/-- C1 (amended): when every write succeeds except the upload-log put (the
transport fails exactly the log's wire key), `upload_media_bundle` and
`replaceMediaAsset` raise the client error instead of returning a
`MediaBundleResult`; the already-uploaded assets and the manifest are left in
place (no rollback). -/
theorem c1_log_failure_propagates :
    (∀ (ctx : Ctx) (song_id : Str) (audio : Body) (act : Option Str)
       (video : Option Body) (vct : Option Str) (art : Option Body)
       (arct : Option Str) (pfx : Option Str) (md : List (Str × Str))
       (uid : Option Str) (e : Option Nat) (st : St),
      song_id ≠ [] →
      (∀ k, ctx.putFails k = decide
        (k = logPutKey ctx (resolvedOf ctx (assetKeyOf song_id pfx .audio)))) →
      ∃ st',
        upload_media_bundle ctx song_id audio act video vct art arct pfx md uid
          e st = (.error .clientErr, st') ∧
        (∃ o, find st' (resolvedOf ctx (assetKeyOf song_id pfx .audio)) = some o ∧
          o.body = audio) ∧
        (∃ o m, find st' (resolvedOf ctx (manifestKeyOf song_id pfx)) = some o ∧
          o.body = .manifestJson m)) ∧
    (∀ (ctx : Ctx) (song_id : Str) (asset : Asset) (file : Body)
       (ct : Option Str) (md : List (Str × Str)) (uid : Option Str)
       (pfx : Option Str) (e : Option Nat) (st : St),
      (∀ k, ctx.putFails k = decide
        (k = logPutKey ctx (resolvedOf ctx (assetKeyOf song_id pfx asset)))) →
      ∃ st',
        replace_media_asset ctx song_id asset file ct md uid pfx e st =
          (.error .clientErr, st') ∧
        (∃ o, find st' (resolvedOf ctx (assetKeyOf song_id pfx asset)) = some o ∧
          o.body = file) ∧
        (∃ o m, find st' (resolvedOf ctx (manifestKeyOf song_id pfx)) = some o ∧
          o.body = .manifestJson m)) := by
  constructor
  · intro ctx song_id audio act video vct art arct pfx md uid e st hsid hput
    have hpA : ctx.putFails (resolvedOf ctx (assetKeyOf song_id pfx .audio)) = false := by
      rw [hput]
      exact decide_eq_false (resolved_asset_ne_logPut ctx song_id pfx .audio _)
    have hpV : ctx.putFails (resolvedOf ctx (assetKeyOf song_id pfx .video)) = false := by
      rw [hput]
      exact decide_eq_false (resolved_asset_ne_logPut ctx song_id pfx .video _)
    have hpAr : ctx.putFails (resolvedOf ctx (assetKeyOf song_id pfx .art)) = false := by
      rw [hput]
      exact decide_eq_false (resolved_asset_ne_logPut ctx song_id pfx .art _)
    have hpM : ctx.putFails (resolvedOf ctx (manifestKeyOf song_id pfx)) = false := by
      rw [hput]
      exact decide_eq_false (resolved_manifest_ne_logPut ctx song_id pfx _)
    have hpL : ctx.putFails
        (logPutKey ctx (resolvedOf ctx (assetKeyOf song_id pfx .audio))) = true := by
      rw [hput]
      simp
    have ha : (normalizedPfx song_id pfx ++ str "/audio") =
        assetKeyOf song_id pfx .audio := rfl
    have hv : (normalizedPfx song_id pfx ++ str "/video") =
        assetKeyOf song_id pfx .video := rfl
    have har : (normalizedPfx song_id pfx ++ str "/art") =
        assetKeyOf song_id pfx .art := rfl
    have hmk : (normalizedPfx song_id pfx ++ str "/manifest.json") =
        manifestKeyOf song_id pfx := rfl
    unfold upload_media_bundle
    simp only [if_neg hsid]
    rw [ha, hv, har, hmk]
    obtain ⟨oA, h1, hbA, -⟩ := upload_file_true_ok ctx (assetKeyOf song_id pfx .audio)
      audio _ _ st (assetKeyOf_ne_nil song_id pfx .audio) hpA
    rw [h1]
    simp only []
    obtain ⟨uA, huA⟩ := resolve_asset_url_noerr ctx
      (resolvedOf ctx (assetKeyOf song_id pfx .audio)) e _
      (resolved_assetKey_ne_nil ctx song_id pfx .audio)
    rw [huA]
    simp only []
    cases video with
    | none =>
      simp only []
      cases art with
      | none =>
        simp only []
        obtain ⟨oM, h2, hbM, -⟩ := put_json_ok ctx (manifestKeyOf song_id pfx) _ _ _
          (manifestKeyOf_ne_nil song_id pfx) hpM
        rw [h2]
        simp only []
        obtain ⟨uM, huM⟩ := resolve_asset_url_noerr ctx (manifestKeyOf song_id pfx)
          e _ (manifestKeyOf_ne_nil song_id pfx)
        rw [huM]
        simp only []
        rw [write_object_log_fail ctx
          (resolvedOf ctx (assetKeyOf song_id pfx .audio)) (some song_id) uid _
          (resolved_assetKey_ne_nil ctx song_id pfx .audio) hpL]
        simp only []
        refine ⟨_, rfl, ⟨oA, ?_, hbA⟩, ⟨oM, _, ?_, hbM⟩⟩
        · rw [find_cons_ne _ _ (Ne.symm (resolved_asset_ne_manifest ctx song_id pfx .audio)),
            find_cons, if_pos rfl]
        · rw [find_cons, if_pos rfl]
      | some a =>
        simp only []
        obtain ⟨oAr, h4, hbAr, -⟩ := upload_file_true_ok ctx
          (assetKeyOf song_id pfx .art) a _ _ _
          (assetKeyOf_ne_nil song_id pfx .art) hpAr
        rw [h4]
        simp only []
        obtain ⟨uAr, huAr⟩ := resolve_asset_url_noerr ctx
          (resolvedOf ctx (assetKeyOf song_id pfx .art)) e _
          (resolved_assetKey_ne_nil ctx song_id pfx .art)
        rw [huAr]
        simp only []
        obtain ⟨oM, h2, hbM, -⟩ := put_json_ok ctx (manifestKeyOf song_id pfx) _ _ _
          (manifestKeyOf_ne_nil song_id pfx) hpM
        rw [h2]
        simp only []
        obtain ⟨uM, huM⟩ := resolve_asset_url_noerr ctx (manifestKeyOf song_id pfx)
          e _ (manifestKeyOf_ne_nil song_id pfx)
        rw [huM]
        simp only []
        rw [write_object_log_fail ctx
          (resolvedOf ctx (assetKeyOf song_id pfx .audio)) (some song_id) uid _
          (resolved_assetKey_ne_nil ctx song_id pfx .audio) hpL]
        simp only []
        refine ⟨_, rfl, ⟨oA, ?_, hbA⟩, ⟨oM, _, ?_, hbM⟩⟩
        · rw [find_cons_ne _ _ (Ne.symm (resolved_asset_ne_manifest ctx song_id pfx .audio)),
            find_cons_ne _ _ (resolved_asset_ne_asset ctx song_id pfx
              (by decide : Asset.art ≠ Asset.audio)),
            find_cons, if_pos rfl]
        · rw [find_cons, if_pos rfl]
    | some v =>
      simp only []
      obtain ⟨oV, h6, hbV, -⟩ := upload_file_true_ok ctx
        (assetKeyOf song_id pfx .video) v _ _ _
        (assetKeyOf_ne_nil song_id pfx .video) hpV
      rw [h6]
      simp only []
      obtain ⟨uV, huV⟩ := resolve_asset_url_noerr ctx
        (resolvedOf ctx (assetKeyOf song_id pfx .video)) e _
        (resolved_assetKey_ne_nil ctx song_id pfx .video)
      rw [huV]
      simp only []
      cases art with
      | none =>
        simp only []
        obtain ⟨oM, h2, hbM, -⟩ := put_json_ok ctx (manifestKeyOf song_id pfx) _ _ _
          (manifestKeyOf_ne_nil song_id pfx) hpM
        rw [h2]
        simp only []
        obtain ⟨uM, huM⟩ := resolve_asset_url_noerr ctx (manifestKeyOf song_id pfx)
          e _ (manifestKeyOf_ne_nil song_id pfx)
        rw [huM]
        simp only []
        rw [write_object_log_fail ctx
          (resolvedOf ctx (assetKeyOf song_id pfx .audio)) (some song_id) uid _
          (resolved_assetKey_ne_nil ctx song_id pfx .audio) hpL]
        simp only []
        refine ⟨_, rfl, ⟨oA, ?_, hbA⟩, ⟨oM, _, ?_, hbM⟩⟩
        · rw [find_cons_ne _ _ (Ne.symm (resolved_asset_ne_manifest ctx song_id pfx .audio)),
            find_cons_ne _ _ (resolved_asset_ne_asset ctx song_id pfx
              (by decide : Asset.video ≠ Asset.audio)),
            find_cons, if_pos rfl]
        · rw [find_cons, if_pos rfl]
      | some a =>
        simp only []
        obtain ⟨oAr, h4, hbAr, -⟩ := upload_file_true_ok ctx
          (assetKeyOf song_id pfx .art) a _ _ _
          (assetKeyOf_ne_nil song_id pfx .art) hpAr
        rw [h4]
        simp only []
        obtain ⟨uAr, huAr⟩ := resolve_asset_url_noerr ctx
          (resolvedOf ctx (assetKeyOf song_id pfx .art)) e _
          (resolved_assetKey_ne_nil ctx song_id pfx .art)
        rw [huAr]
        simp only []
        obtain ⟨oM, h2, hbM, -⟩ := put_json_ok ctx (manifestKeyOf song_id pfx) _ _ _
          (manifestKeyOf_ne_nil song_id pfx) hpM
        rw [h2]
        simp only []
        obtain ⟨uM, huM⟩ := resolve_asset_url_noerr ctx (manifestKeyOf song_id pfx)
          e _ (manifestKeyOf_ne_nil song_id pfx)
        rw [huM]
        simp only []
        rw [write_object_log_fail ctx
          (resolvedOf ctx (assetKeyOf song_id pfx .audio)) (some song_id) uid _
          (resolved_assetKey_ne_nil ctx song_id pfx .audio) hpL]
        simp only []
        refine ⟨_, rfl, ⟨oA, ?_, hbA⟩, ⟨oM, _, ?_, hbM⟩⟩
        · rw [find_cons_ne _ _ (Ne.symm (resolved_asset_ne_manifest ctx song_id pfx .audio)),
            find_cons_ne _ _ (resolved_asset_ne_asset ctx song_id pfx
              (by decide : Asset.art ≠ Asset.audio)),
            find_cons_ne _ _ (resolved_asset_ne_asset ctx song_id pfx
              (by decide : Asset.video ≠ Asset.audio)),
            find_cons, if_pos rfl]
        · rw [find_cons, if_pos rfl]
  · intro ctx song_id asset file ct md uid pfx e st hput
    have hpAs : ctx.putFails (resolvedOf ctx (assetKeyOf song_id pfx asset)) = false := by
      rw [hput]
      exact decide_eq_false (resolved_asset_ne_logPut ctx song_id pfx asset _)
    have hpM : ctx.putFails (resolvedOf ctx (manifestKeyOf song_id pfx)) = false := by
      rw [hput]
      exact decide_eq_false (resolved_manifest_ne_logPut ctx song_id pfx _)
    have hpL : ctx.putFails
        (logPutKey ctx (resolvedOf ctx (assetKeyOf song_id pfx asset))) = true := by
      rw [hput]
      simp
    have hak : (normalizedPfx song_id pfx ++ '/' :: asset.toStr) =
        assetKeyOf song_id pfx asset := rfl
    have hmk : (normalizedPfx song_id pfx ++ str "/manifest.json") =
        manifestKeyOf song_id pfx := rfl
    unfold replace_media_asset
    simp only []
    rw [hak, hmk]
    obtain ⟨o1, h1, hb1, -⟩ := upload_file_true_ok ctx (assetKeyOf song_id pfx asset)
      file ct _ st (assetKeyOf_ne_nil song_id pfx asset) hpAs
    rw [h1]
    simp only []
    obtain ⟨u1, hu1⟩ := resolve_asset_url_noerr ctx
      (resolvedOf ctx (assetKeyOf song_id pfx asset)) e _
      (resolved_assetKey_ne_nil ctx song_id pfx asset)
    rw [hu1]
    simp only []
    obtain ⟨o2, h2, hb2, -⟩ := put_json_ok ctx (manifestKeyOf song_id pfx) _ _ _
      (manifestKeyOf_ne_nil song_id pfx) hpM
    rw [h2]
    simp only []
    rw [write_object_log_fail ctx (resolvedOf ctx (assetKeyOf song_id pfx asset))
      (some song_id) uid _ (resolved_assetKey_ne_nil ctx song_id pfx asset) hpL]
    simp only []
    refine ⟨_, rfl, ⟨o1, ?_, hb1⟩, ⟨o2, _, ?_, hb2⟩⟩
    · rw [find_cons_ne _ _ (Ne.symm (resolved_asset_ne_manifest ctx song_id pfx asset)),
        find_cons, if_pos rfl]
    · rw [find_cons, if_pos rfl]

/-- C1 witness: the failing-log scenario run concretely, for both the bundle
upload and an audio replacement. -/
theorem c1_witness :
    (∃ st',
      upload_media_bundle c1ctx (str "s") (.raw [9]) none none none none none
        none [] none (some 3600) [] = (.error .clientErr, st') ∧
      (∃ o, find st' (str "songs/s/audio") = some o ∧ o.body = .raw [9]) ∧
      (∃ o m, find st' (str "songs/s/manifest.json") = some o ∧
        o.body = .manifestJson m)) ∧
    (∃ st',
      replace_media_asset c1ctx (str "s") .audio (.raw [7]) none [] none none
        (some 3600) [] = (.error .clientErr, st') ∧
      (∃ o, find st' (str "songs/s/audio") = some o ∧ o.body = .raw [7]) ∧
      (∃ o m, find st' (str "songs/s/manifest.json") = some o ∧
        o.body = .manifestJson m)) :=
  ⟨c1_log_failure_propagates.1 c1ctx (str "s") (.raw [9]) none none none none
      none none [] none (some 3600) [] (by decide) (fun k => rfl),
   c1_log_failure_propagates.2 c1ctx (str "s") .audio (.raw [7]) none [] none
      none (some 3600) [] (fun k => rfl)⟩

/-! ### Claim C8 — existence-style queries degrade instead of raising -/

/-- C8: for every non-empty key, `object_exists` returns a boolean and never
raises; any retrieval failure (transport oracle, e.g. revoked credentials) and
any never-created key both give `false`; with signing failing, `build_url` with
a truthy expiry and `create_presigned_post` both return `none` rather than
raising. -/
theorem c8_queries_degrade (ctx : Ctx) (key : Str) (st : St) (n e : Nat)
    (hk : key ≠ []) :
    (∃ b, object_exists ctx key st = (.ok b, st)) ∧
    (ctx.retrFails (resolvedOf ctx key) = true →
      object_exists ctx key st = (.ok false, st)) ∧
    (find st (resolvedOf ctx key) = none →
      object_exists ctx key st = (.ok false, st)) ∧
    (ctx.signFails = true → n ≠ 0 →
      build_url ctx key (some n) st = (.ok none, st)) ∧
    (ctx.signFails = true →
      create_presigned_post ctx key e st = (.ok none, st)) := by
  refine ⟨object_exists_noerr ctx key st hk, fun hretr => ?_, fun hfind => ?_,
    fun hs hn => ?_, fun hs => ?_⟩
  · unfold object_exists
    rw [resolve_key_eq ctx key hk]
    simp [s3Head, hretr]
  · unfold object_exists
    rw [resolve_key_eq ctx key hk]
    cases hretr : ctx.retrFails (resolvedOf ctx key) <;> simp [s3Head, hretr, hfind]
  · unfold build_url
    rw [resolve_key_eq ctx key hk]
    simp [hs, hn]
  · unfold create_presigned_post
    rw [resolve_key_eq ctx key hk]
    simp [hs]

/-- C8 witness: a provider with revoked credentials (every retrieval and
signing request fails) degrades all four queries on key `k`. -/
theorem c8_witness :
    (∃ b, object_exists failCtx (str "k") [(str "k", sampleObj)] =
      (.ok b, [(str "k", sampleObj)])) ∧
    object_exists failCtx (str "k") [(str "k", sampleObj)] =
      (.ok false, [(str "k", sampleObj)]) ∧
    build_url failCtx (str "k") (some 60) [(str "k", sampleObj)] =
      (.ok none, [(str "k", sampleObj)]) ∧
    create_presigned_post failCtx (str "k") 60 [(str "k", sampleObj)] =
      (.ok none, [(str "k", sampleObj)]) := by
  have h := c8_queries_degrade failCtx (str "k") [(str "k", sampleObj)] 60 60 (by decide)
  exact ⟨h.1, h.2.1 rfl, h.2.2.2.1 rfl (by decide), h.2.2.2.2 rfl⟩

/-! ### Claim C4 — overwrite=false on an existing key -/

/-- C4 counterexample: with base path `p`, the object exists at the resolved
key `p/k`, yet `upload_file(k, overwrite=false)` succeeds and replaces its
content: the existence check re-resolves the already-resolved key to `p/p/k`
and misses. -/
theorem c4_counterexample :
    find [(str "p/k", sampleObj)] (str "p/k") = some sampleObj ∧
    (upload_file pBaseCtx (str "k") (.raw [2]) none [] false
      [(str "p/k", sampleObj)]).1 = .ok ⟨str "p/k", none, none⟩ ∧
    find (upload_file pBaseCtx (str "k") (.raw [2]) none [] false
      [(str "p/k", sampleObj)]).2 (str "p/k") = some ⟨.raw [2], none, []⟩ ∧
    (⟨.raw [2], none, []⟩ : S3Object) ≠ sampleObj :=
  ⟨rfl, rfl, rfl, by decide⟩

/-- C4 (amended): with an EMPTY configured base path (where resolution is
idempotent) and a healthy existence probe, `upload_file` with
`overwrite=false` on an existing resolved key fails with `AlreadyExists` and
leaves the store — in particular the existing object's content — unchanged. -/
theorem c4_no_overwrite (ctx : Ctx) (key : Str) (payload : Body)
    (ct : Option Str) (md : List (Str × Str)) (st : St) (o : S3Object)
    (hb : ctx.base_path = []) (hk : key ≠ []) (hk2 : resolvedOf ctx key ≠ [])
    (hretr : ctx.retrFails (resolvedOf ctx key) = false)
    (hfind : find st (resolvedOf ctx key) = some o) :
    upload_file ctx key payload ct md false st = (.error .alreadyExists, st) ∧
    find st (resolvedOf ctx key) = some o := by
  have hres2 : resolvedOf ctx (resolvedOf ctx key) = resolvedOf ctx key := by
    unfold resolvedOf
    rw [if_pos hb, if_pos hb, pyLstrip_idem]
  refine ⟨?_, hfind⟩
  unfold upload_file
  rw [resolve_key_eq ctx key hk]
  simp only [Bool.false_eq_true, if_false]
  unfold object_exists
  rw [resolve_key_eq ctx (resolvedOf ctx key) hk2, hres2]
  simp [s3Head, hretr, hfind]

/-- C4 witness: empty base path, existing object at `k`, refused overwrite. -/
theorem c4_witness :
    upload_file emptyBaseCtx (str "k") (.raw [2]) none [] false
      [(str "k", sampleObj)] = (.error .alreadyExists, [(str "k", sampleObj)]) ∧
    find [(str "k", sampleObj)] (resolvedOf emptyBaseCtx (str "k")) = some sampleObj :=
  c4_no_overwrite emptyBaseCtx (str "k") (.raw [2]) none [] [(str "k", sampleObj)]
    sampleObj (by decide) (by decide) (by decide) rfl rfl

/-! ### Claim C9 — metadata merge/replace -/

/-- The current metadata of the object used in the C9 counterexample. -/
def c9obj : S3Object := ⟨.raw [1], some (str "t/x"), [(str "a", str "1")]⟩

/-- C9 counterexample: with base path `p` and an existing object at `p/k`
carrying metadata `{a: 1}`, `update_metadata(k, {b: 2}, merge=true)` leaves
metadata `{b: 2}`, not the union `{a: 1, b: 2}`: the current-metadata read
re-resolves the already-resolved key (`p/p/k`), misses, and merges into an
empty dictionary. -/
theorem c9_counterexample :
    find [(str "p/k", c9obj)] (str "p/k") = some c9obj ∧
    find (update_metadata pBaseCtx (str "k") [(str "b", str "2")] true
        [(str "p/k", c9obj)]).2 (str "p/k") =
      some ⟨.raw [1], none, [(str "b", str "2")]⟩ ∧
    [(str "b", str "2")] ≠ dictUnion c9obj.metadata [(str "b", str "2")] :=
  ⟨rfl, rfl, by decide⟩

/-- C9 (amended): with an EMPTY configured base path and a healthy transport,
`update_metadata` on an existing object with current metadata `M` leaves the
object's metadata equal to `M ∪ N` (new values winning) under `merge=true` and
to exactly `N` under `merge=false`, preserving body and content type. -/
theorem c9_update_metadata (ctx : Ctx) (key : Str) (n : List (Str × Str))
    (merge : Bool) (st : St) (o : S3Object)
    (hb : ctx.base_path = []) (hk : key ≠ []) (hk2 : resolvedOf ctx key ≠ [])
    (hretr : ctx.retrFails (resolvedOf ctx key) = false)
    (hfind : find st (resolvedOf ctx key) = some o) :
    ∃ res st', update_metadata ctx key n merge st = (.ok res, st') ∧
      find st' (resolvedOf ctx key) =
        some ⟨o.body, o.contentType, if merge then dictUnion o.metadata n else n⟩ := by
  have hres2 : resolvedOf ctx (resolvedOf ctx key) = resolvedOf ctx key := by
    unfold resolvedOf
    rw [if_pos hb, if_pos hb, pyLstrip_idem]
  have hretr2 : ctx.retrFails (resolvedOf ctx (resolvedOf ctx key)) = false := by
    rw [hres2]; exact hretr
  have hfind2 : find st (resolvedOf ctx (resolvedOf ctx key)) = some o := by
    rw [hres2]; exact hfind
  unfold update_metadata
  rw [resolve_key_eq ctx key hk]
  simp only []
  rw [get_object_info_found ctx (resolvedOf ctx key) st o hk2 hretr2 hfind2, hres2]
  simp only [Option.bind_some, metaRoundtrip]
  simp only [s3CopyReplaceMeta, hretr, Bool.false_eq_true, if_false, hfind]
  rw [get_object_info_found ctx (resolvedOf ctx key) _
    ⟨o.body, o.contentType, if merge = true then dictUnion o.metadata n else n⟩
    hk2 hretr2 (by simp [find, hres2, metaRoundtrip]), hres2]
  exact ⟨_, _, rfl, by simp [find, metaRoundtrip]⟩

/-- C9 witness: empty base path, merge of `{b: 2}` into current `{a: 1}`. -/
theorem c9_witness :
    ∃ res st', update_metadata emptyBaseCtx (str "k") [(str "b", str "2")] true
        [(str "k", c9obj)] = (.ok res, st') ∧
      find st' (resolvedOf emptyBaseCtx (str "k")) =
        some ⟨c9obj.body, c9obj.contentType,
          dictUnion c9obj.metadata [(str "b", str "2")]⟩ := by
  obtain ⟨res, st', h1, h2⟩ := c9_update_metadata emptyBaseCtx (str "k")
    [(str "b", str "2")] true [(str "k", c9obj)] c9obj
    (by decide) (by decide) (by decide) rfl rfl
  exact ⟨res, st', h1, by simpa using h2⟩

/-! ### Claim C6 — replace frame property -/

/-- The pre-existing manifest used by the C6 counterexample and witness. -/
def c6m0 : Manifest :=
  ⟨str "s", some 1, str "bucket", str "songs/s", some (str "ua"), some (str "uv"),
   none, some (str "songs/s/audio"), some (str "songs/s/video"), none,
   [(str "x", str "y")], some (str "u1"), none, none, none, none, none, none⟩

/-- The pre-call store of the C6 counterexample and witness: the manifest and
an audio object. -/
def c6st : St :=
  [(str "songs/s/manifest.json", ⟨.manifestJson c6m0, some (str "application/json"), []⟩),
   (str "songs/s/audio", ⟨.raw [1], none, []⟩)]

/-- The provider used by the C6 counterexample: every write succeeds, but
every retrieval of the manifest's wire key fails (a transient transport
error; the manifest itself is present in the store). -/
def c6failCtx : Ctx :=
  ⟨str "bucket", str "", some (str "https://cdn.example"), fun _ => none,
   fun _ => false, fun k => decide (k = str "songs/s/manifest.json"),
   fun _ => false, false, 5⟩

/-- The manifest the C6 counterexample run persists: the synthesized fresh
manifest with only the art slot filled. -/
def c6freshPersisted : Manifest :=
  ⟨str "s", some 5, str "bucket", str "songs/s", none, none,
   some (str "presigned://songs/s/art?exp=3600"), none, none,
   some (str "songs/s/art"), [], none, none, none, none, none, none, none⟩

/-- C6 counterexample: the manifest exists (with non-null `keys.audio` and
`keys.video`) but its read fails transiently; `replace_media_asset` for `art`
still SUCCEEDS — the bare `except` around the read synthesizes a fresh
empty-slots manifest — and the persisted manifest's `keys.audio` and
`keys.video` are nulled, not bit-identical to their pre-call values. -/
theorem c6_counterexample :
    find c6st (str "songs/s/manifest.json") =
      some ⟨.manifestJson c6m0, some (str "application/json"), []⟩ ∧
    c6m0.keys_audio = some (str "songs/s/audio") ∧
    c6m0.keys_video = some (str "songs/s/video") ∧
    (replace_media_asset c6failCtx (str "s") .art (.raw [7]) none [] none none
        (some 3600) c6st).1 =
      .ok ⟨str "s", none, none, some (str "songs/s/art"), none, none,
        some (str "presigned://songs/s/art?exp=3600"), str "songs/s/manifest.json",
        some (str "presigned://songs/s/manifest.json?exp=3600")⟩ ∧
    find (replace_media_asset c6failCtx (str "s") .art (.raw [7]) none [] none
        none (some 3600) c6st).2 (str "songs/s/manifest.json") =
      some ⟨.manifestJson c6freshPersisted, some (str "application/json"),
        [(str "song_id", str "s"), (str "type", str "manifest")]⟩ ∧
    c6freshPersisted.keys_audio = none ∧
    c6freshPersisted.keys_video = none ∧
    c6freshPersisted.keys_audio ≠ c6m0.keys_audio :=
  ⟨rfl, rfl, rfl, by rfl, by rfl, rfl, rfl, by decide⟩

/-- C6 (amended): a `replace_media_asset` call for `art` with no metadata and
no uploader supplied, against an existing stored manifest `m0` WHOSE READ
SUCCEEDS, and with the three involved writes succeeding, persists a manifest
that differs from `m0` only in `keys.art`, `links.art` and `uploaded_at`; in
particular `keys.audio` and `keys.video` (and the other slots) are identical
to their pre-call values. (When the read fails — even transiently, with the
manifest present — the call still succeeds but persists a fresh manifest with
the other slots nulled: see the counterexample.) -/
theorem c6_replace_art_frame (ctx : Ctx) (song_id : Str) (file : Body)
    (ct : Option Str) (pfx : Option Str) (e : Option Nat) (st : St)
    (m0 : Manifest) (mobj : S3Object)
    (hfind : find st (resolvedOf ctx (manifestKeyOf song_id pfx)) = some mobj)
    (hbody : mobj.body = .manifestJson m0)
    (hretr : ctx.retrFails (resolvedOf ctx (manifestKeyOf song_id pfx)) = false)
    (hputA : ctx.putFails (resolvedOf ctx (assetKeyOf song_id pfx .art)) = false)
    (hputM : ctx.putFails (resolvedOf ctx (manifestKeyOf song_id pfx)) = false)
    (hputL : ctx.putFails
      (logPutKey ctx (resolvedOf ctx (assetKeyOf song_id pfx .art))) = false) :
    ∃ res st' o m1,
      replace_media_asset ctx song_id .art file ct [] none pfx e st = (.ok res, st') ∧
      find st' (resolvedOf ctx (manifestKeyOf song_id pfx)) = some o ∧
      o.body = .manifestJson m1 ∧
      m1 = { m0 with keys_art := m1.keys_art, links_art := m1.links_art,
                     uploaded_at := some ctx.now } ∧
      m1.keys_audio = m0.keys_audio ∧ m1.keys_video = m0.keys_video ∧
      m1.links_audio = m0.links_audio ∧ m1.links_video = m0.links_video := by
  have hak : (normalizedPfx song_id pfx ++ '/' :: Asset.toStr .art) =
      assetKeyOf song_id pfx .art := rfl
  have hmk : (normalizedPfx song_id pfx ++ str "/manifest.json") =
      manifestKeyOf song_id pfx := rfl
  unfold replace_media_asset
  simp only []
  rw [hak, hmk]
  obtain ⟨o1, h1, hb1, -⟩ := upload_file_true_ok ctx (assetKeyOf song_id pfx .art)
    file ct _ st (assetKeyOf_ne_nil song_id pfx .art) hputA
  rw [h1]
  simp only []
  have hfind1 : find ((resolvedOf ctx (assetKeyOf song_id pfx .art), o1) :: st)
      (resolvedOf ctx (manifestKeyOf song_id pfx)) = some mobj := by
    rw [find_cons_ne _ _ (resolved_asset_ne_manifest ctx song_id pfx .art)]
    exact hfind
  rw [open_stream_found ctx (manifestKeyOf song_id pfx) _ mobj
    (manifestKeyOf_ne_nil song_id pfx) hretr hfind1, hbody]
  simp only []
  obtain ⟨u1, hu1⟩ := resolve_asset_url_noerr ctx
    (resolvedOf ctx (assetKeyOf song_id pfx .art)) e _
    (resolved_assetKey_ne_nil ctx song_id pfx .art)
  rw [hu1]
  simp only []
  simp only [reduceIte]
  obtain ⟨o2, h2, hb2, -⟩ := put_json_ok ctx (manifestKeyOf song_id pfx) _ _ _
    (manifestKeyOf_ne_nil song_id pfx) hputM
  rw [h2]
  simp only []
  obtain ⟨o3, h3, -⟩ := write_object_log_ok ctx
    (resolvedOf ctx (assetKeyOf song_id pfx .art)) (some song_id) none _
    (resolved_assetKey_ne_nil ctx song_id pfx .art) hputL
  rw [h3]
  simp only []
  obtain ⟨u2, hu2⟩ := resolve_asset_url_noerr ctx (manifestKeyOf song_id pfx) e _
    (manifestKeyOf_ne_nil song_id pfx)
  rw [hu2]
  simp only []
  refine ⟨_, _, o2, _, rfl, ?_, hb2, ?_, rfl, rfl, rfl, rfl⟩
  · rw [find_cons_ne _ _ (logPut_ne_resolved_manifest ctx _ song_id pfx), find_cons,
      if_pos rfl]
  · rfl

/-- C6 witness: a concrete art replacement against a stored two-asset
manifest whose read succeeds. -/
theorem c6_witness :
    ∃ res st' o m1,
      replace_media_asset emptyBaseCtx (str "s") .art (.raw [7]) none [] none none
        (some 3600) c6st = (.ok res, st') ∧
      find st' (resolvedOf emptyBaseCtx (manifestKeyOf (str "s") none)) = some o ∧
      o.body = .manifestJson m1 ∧
      m1 = { c6m0 with keys_art := m1.keys_art, links_art := m1.links_art,
                       uploaded_at := some emptyBaseCtx.now } ∧
      m1.keys_audio = c6m0.keys_audio ∧ m1.keys_video = c6m0.keys_video ∧
      m1.links_audio = c6m0.links_audio ∧ m1.links_video = c6m0.links_video :=
  c6_replace_art_frame emptyBaseCtx (str "s") (.raw [7]) none none (some 3600)
    c6st c6m0 _ rfl rfl rfl rfl rfl rfl

/-! ### A success characterisation of `upload_media_bundle` -/

/-- When the song id is non-empty and every involved write succeeds (the
asset puts, the manifest put, and the per-asset log puts), the bundle upload
returns normally; the result's asset keys are the resolved asset keys, its
`manifest_key` is the logical manifest key, and the persisted manifest's
`keys` slots hold the resolved key for each supplied asset and `null` for each
omitted one. -/
theorem bundle_success_spec (ctx : Ctx) (song_id : Str) (audio : Body)
    (act : Option Str) (video : Option Body) (vct : Option Str)
    (art : Option Body) (arct : Option Str) (pfx : Option Str)
    (md : List (Str × Str)) (uid : Option Str) (e : Option Nat) (st : St)
    (hsid : song_id ≠ [])
    (hpA : ctx.putFails (resolvedOf ctx (assetKeyOf song_id pfx .audio)) = false)
    (hpV : ∀ v, video = some v →
      ctx.putFails (resolvedOf ctx (assetKeyOf song_id pfx .video)) = false)
    (hpAr : ∀ a, art = some a →
      ctx.putFails (resolvedOf ctx (assetKeyOf song_id pfx .art)) = false)
    (hpM : ctx.putFails (resolvedOf ctx (manifestKeyOf song_id pfx)) = false)
    (hpLA : ctx.putFails
      (logPutKey ctx (resolvedOf ctx (assetKeyOf song_id pfx .audio))) = false)
    (hpLV : ∀ v, video = some v → ctx.putFails
      (logPutKey ctx (resolvedOf ctx (assetKeyOf song_id pfx .video))) = false)
    (hpLAr : ∀ a, art = some a → ctx.putFails
      (logPutKey ctx (resolvedOf ctx (assetKeyOf song_id pfx .art))) = false) :
    ∃ res st' o m,
      upload_media_bundle ctx song_id audio act video vct art arct pfx md uid e st =
        (.ok res, st') ∧
      res.audio_key = some (resolvedOf ctx (assetKeyOf song_id pfx .audio)) ∧
      res.video_key = video.map (fun _ => resolvedOf ctx (assetKeyOf song_id pfx .video)) ∧
      res.art_key = art.map (fun _ => resolvedOf ctx (assetKeyOf song_id pfx .art)) ∧
      res.manifest_key = manifestKeyOf song_id pfx ∧
      find st' (resolvedOf ctx (manifestKeyOf song_id pfx)) = some o ∧
      o.body = .manifestJson m ∧
      m.keys_audio = some (resolvedOf ctx (assetKeyOf song_id pfx .audio)) ∧
      m.keys_video = video.map (fun _ => resolvedOf ctx (assetKeyOf song_id pfx .video)) ∧
      m.keys_art = art.map (fun _ => resolvedOf ctx (assetKeyOf song_id pfx .art)) := by
  have ha : (normalizedPfx song_id pfx ++ str "/audio") = assetKeyOf song_id pfx .audio := rfl
  have hv : (normalizedPfx song_id pfx ++ str "/video") = assetKeyOf song_id pfx .video := rfl
  have har : (normalizedPfx song_id pfx ++ str "/art") = assetKeyOf song_id pfx .art := rfl
  have hmk : (normalizedPfx song_id pfx ++ str "/manifest.json") =
      manifestKeyOf song_id pfx := rfl
  unfold upload_media_bundle
  simp only [if_neg hsid]
  rw [ha, hv, har, hmk]
  obtain ⟨oA, h1, hbA, -⟩ := upload_file_true_ok ctx (assetKeyOf song_id pfx .audio)
    audio _ _ st (assetKeyOf_ne_nil song_id pfx .audio) hpA
  rw [h1]
  simp only []
  obtain ⟨uA, huA⟩ := resolve_asset_url_noerr ctx
    (resolvedOf ctx (assetKeyOf song_id pfx .audio)) e _
    (resolved_assetKey_ne_nil ctx song_id pfx .audio)
  rw [huA]
  simp only []
  cases video with
  | none =>
    simp only []
    cases art with
    | none =>
      simp only []
      obtain ⟨oM, h2, hbM, -⟩ := put_json_ok ctx (manifestKeyOf song_id pfx) _ _ _
        (manifestKeyOf_ne_nil song_id pfx) hpM
      rw [h2]
      simp only []
      obtain ⟨uM, huM⟩ := resolve_asset_url_noerr ctx (manifestKeyOf song_id pfx) e _
        (manifestKeyOf_ne_nil song_id pfx)
      rw [huM]
      simp only []
      obtain ⟨oL, h3, -⟩ := write_object_log_ok ctx
        (resolvedOf ctx (assetKeyOf song_id pfx .audio)) (some song_id) uid _
        (resolved_assetKey_ne_nil ctx song_id pfx .audio) hpLA
      rw [h3]
      simp only []
      refine ⟨_, _, oM, _, rfl, rfl, rfl, rfl, rfl, ?_, hbM, rfl, rfl, rfl⟩
      rw [find_cons_ne _ _ (logPut_ne_resolved_manifest ctx _ song_id pfx), find_cons,
        if_pos rfl]
    | some a =>
      simp only []
      obtain ⟨oAr, h4, hbAr, -⟩ := upload_file_true_ok ctx
        (assetKeyOf song_id pfx .art) a _ _ _
        (assetKeyOf_ne_nil song_id pfx .art) (hpAr a rfl)
      rw [h4]
      simp only []
      obtain ⟨uAr, huAr⟩ := resolve_asset_url_noerr ctx
        (resolvedOf ctx (assetKeyOf song_id pfx .art)) e _
        (resolved_assetKey_ne_nil ctx song_id pfx .art)
      rw [huAr]
      simp only []
      obtain ⟨oM, h2, hbM, -⟩ := put_json_ok ctx (manifestKeyOf song_id pfx) _ _ _
        (manifestKeyOf_ne_nil song_id pfx) hpM
      rw [h2]
      simp only []
      obtain ⟨uM, huM⟩ := resolve_asset_url_noerr ctx (manifestKeyOf song_id pfx) e _
        (manifestKeyOf_ne_nil song_id pfx)
      rw [huM]
      simp only []
      obtain ⟨oL, h3, -⟩ := write_object_log_ok ctx
        (resolvedOf ctx (assetKeyOf song_id pfx .audio)) (some song_id) uid _
        (resolved_assetKey_ne_nil ctx song_id pfx .audio) hpLA
      rw [h3]
      simp only []
      obtain ⟨oL2, h5, -⟩ := write_object_log_ok ctx
        (resolvedOf ctx (assetKeyOf song_id pfx .art)) (some song_id) uid _
        (resolved_assetKey_ne_nil ctx song_id pfx .art) (hpLAr a rfl)
      rw [h5]
      simp only []
      refine ⟨_, _, oM, _, rfl, rfl, rfl, rfl, rfl, ?_, hbM, rfl, rfl, rfl⟩
      rw [find_cons_ne _ _ (logPut_ne_resolved_manifest ctx _ song_id pfx),
        find_cons_ne _ _ (logPut_ne_resolved_manifest ctx _ song_id pfx), find_cons,
        if_pos rfl]
  | some v =>
    simp only []
    obtain ⟨oV, h6, hbV, -⟩ := upload_file_true_ok ctx
      (assetKeyOf song_id pfx .video) v _ _ _
      (assetKeyOf_ne_nil song_id pfx .video) (hpV v rfl)
    rw [h6]
    simp only []
    obtain ⟨uV, huV⟩ := resolve_asset_url_noerr ctx
      (resolvedOf ctx (assetKeyOf song_id pfx .video)) e _
      (resolved_assetKey_ne_nil ctx song_id pfx .video)
    rw [huV]
    simp only []
    cases art with
    | none =>
      simp only []
      obtain ⟨oM, h2, hbM, -⟩ := put_json_ok ctx (manifestKeyOf song_id pfx) _ _ _
        (manifestKeyOf_ne_nil song_id pfx) hpM
      rw [h2]
      simp only []
      obtain ⟨uM, huM⟩ := resolve_asset_url_noerr ctx (manifestKeyOf song_id pfx) e _
        (manifestKeyOf_ne_nil song_id pfx)
      rw [huM]
      simp only []
      obtain ⟨oL, h3, -⟩ := write_object_log_ok ctx
        (resolvedOf ctx (assetKeyOf song_id pfx .audio)) (some song_id) uid _
        (resolved_assetKey_ne_nil ctx song_id pfx .audio) hpLA
      rw [h3]
      simp only []
      obtain ⟨oL2, h5, -⟩ := write_object_log_ok ctx
        (resolvedOf ctx (assetKeyOf song_id pfx .video)) (some song_id) uid _
        (resolved_assetKey_ne_nil ctx song_id pfx .video) (hpLV v rfl)
      rw [h5]
      simp only []
      refine ⟨_, _, oM, _, rfl, rfl, rfl, rfl, rfl, ?_, hbM, rfl, rfl, rfl⟩
      rw [find_cons_ne _ _ (logPut_ne_resolved_manifest ctx _ song_id pfx),
        find_cons_ne _ _ (logPut_ne_resolved_manifest ctx _ song_id pfx), find_cons,
        if_pos rfl]
    | some a =>
      simp only []
      obtain ⟨oAr, h4, hbAr, -⟩ := upload_file_true_ok ctx
        (assetKeyOf song_id pfx .art) a _ _ _
        (assetKeyOf_ne_nil song_id pfx .art) (hpAr a rfl)
      rw [h4]
      simp only []
      obtain ⟨uAr, huAr⟩ := resolve_asset_url_noerr ctx
        (resolvedOf ctx (assetKeyOf song_id pfx .art)) e _
        (resolved_assetKey_ne_nil ctx song_id pfx .art)
      rw [huAr]
      simp only []
      obtain ⟨oM, h2, hbM, -⟩ := put_json_ok ctx (manifestKeyOf song_id pfx) _ _ _
        (manifestKeyOf_ne_nil song_id pfx) hpM
      rw [h2]
      simp only []
      obtain ⟨uM, huM⟩ := resolve_asset_url_noerr ctx (manifestKeyOf song_id pfx) e _
        (manifestKeyOf_ne_nil song_id pfx)
      rw [huM]
      simp only []
      obtain ⟨oL, h3, -⟩ := write_object_log_ok ctx
        (resolvedOf ctx (assetKeyOf song_id pfx .audio)) (some song_id) uid _
        (resolved_assetKey_ne_nil ctx song_id pfx .audio) hpLA
      rw [h3]
      simp only []
      obtain ⟨oL2, h5, -⟩ := write_object_log_ok ctx
        (resolvedOf ctx (assetKeyOf song_id pfx .video)) (some song_id) uid _
        (resolved_assetKey_ne_nil ctx song_id pfx .video) (hpLV v rfl)
      rw [h5]
      simp only []
      obtain ⟨oL3, h7, -⟩ := write_object_log_ok ctx
        (resolvedOf ctx (assetKeyOf song_id pfx .art)) (some song_id) uid _
        (resolved_assetKey_ne_nil ctx song_id pfx .art) (hpLAr a rfl)
      rw [h7]
      simp only []
      refine ⟨_, _, oM, _, rfl, rfl, rfl, rfl, rfl, ?_, hbM, rfl, rfl, rfl⟩
      rw [find_cons_ne _ _ (logPut_ne_resolved_manifest ctx _ song_id pfx),
        find_cons_ne _ _ (logPut_ne_resolved_manifest ctx _ song_id pfx),
        find_cons_ne _ _ (logPut_ne_resolved_manifest ctx _ song_id pfx), find_cons,
        if_pos rfl]

/-! ### Head-character lemmas used for claim C3 -/

theorem pyLstrip_head_ne (l : Str) : ∀ c, (pyLstrip l).head? = some c → c ≠ '/' := by
  induction l with
  | nil => intro c hc; simp [pyLstrip] at hc
  | cons a t ih =>
    intro c hc
    by_cases ha : a = '/'
    · rw [pyLstrip, List.dropWhile_cons] at hc
      simp only [ha, decide_True, if_true] at hc
      exact ih c hc
    · rw [pyLstrip, List.dropWhile_cons] at hc
      simp only [ha, decide_False, Bool.false_eq_true, if_false, List.head?_cons,
        Option.some.injEq] at hc
      rw [← hc]
      exact ha

theorem pyRstrip_append_back (l : Str) : ∃ x, l = pyRstrip l ++ x := by
  refine ⟨(l.reverse.takeWhile (fun c => c = '/')).reverse, ?_⟩
  conv_lhs => rw [← List.reverse_reverse l,
    ← List.takeWhile_append_dropWhile (fun c => c = '/') l.reverse]
  rw [List.reverse_append]
  rfl

theorem pyRstrip_head {l : Str} {c : Char} (h : (pyRstrip l).head? = some c) :
    l.head? = some c := by
  obtain ⟨x, hx⟩ := pyRstrip_append_back l
  rw [hx, List.head?_append_of_ne_nil _ (by
    intro hn
    rw [hn] at h
    simp at h)]
  exact h

theorem pyStrip_head_ne (l : Str) : ∀ c, (pyStrip l).head? = some c → c ≠ '/' :=
  fun c hc => pyLstrip_head_ne l c (pyRstrip_head hc)

theorem normalizedPfx_head_ne (song_id : Str) (pfx : Option Str) :
    ∀ c, (normalizedPfx song_id pfx).head? = some c → c ≠ '/' := by
  intro c hc
  unfold normalizedPfx at hc
  have hdef : (str "songs/" ++ song_id).head? = some 's' := by
    rw [show str "songs/" ++ song_id = 's' :: (str "ongs/" ++ song_id) from rfl]
    rfl
  cases pfx with
  | none =>
    simp only [] at hc
    rw [hdef] at hc
    rw [← Option.some.inj hc]
    decide
  | some p =>
    simp only [] at hc
    by_cases hp : p = []
    · rw [if_pos hp, hdef] at hc
      rw [← Option.some.inj hc]
      decide
    · rw [if_neg hp] at hc
      exact pyStrip_head_ne p c hc

theorem resolved_manifestKey_of_empty_bp (ctx : Ctx) (song_id : Str)
    (pfx : Option Str) (hb : ctx.base_path = [])
    (hnp : normalizedPfx song_id pfx ≠ []) :
    resolvedOf ctx (manifestKeyOf song_id pfx) = manifestKeyOf song_id pfx := by
  unfold resolvedOf
  rw [if_pos hb]
  apply pyLstrip_of_head_ne
  intro c hc
  unfold manifestKeyOf at hc
  rw [List.head?_append_of_ne_nil _ hnp] at hc
  exact normalizedPfx_head_ne song_id pfx c hc

theorem upload_file_ok_key {ctx : Ctx} {key : Str} {b : Body} {ct : Option Str}
    {mdx : List (Str × Str)} {ow : Bool} {st st' : St} {u : UploadResult}
    (h : upload_file ctx key b ct mdx ow st = (.ok u, st')) :
    resolve_key ctx key = .ok u.key := by
  by_cases hk : key = []
  · subst hk
    unfold upload_file resolve_key at h
    simp at h
  · rw [resolve_key_eq ctx key hk]
    unfold upload_file at h
    rw [resolve_key_eq ctx key hk] at h
    simp only [] at h
    cases ow with
    | true =>
      simp only [if_pos rfl] at h
      cases hp : ctx.putFails (resolvedOf ctx key) with
      | true => simp [s3Put, hp] at h
      | false =>
        simp only [s3Put, hp, Bool.false_eq_true, if_false] at h
        obtain ⟨h1, -⟩ := Prod.mk.inj h
        rw [← Except.ok.inj h1]
    | false =>
      by_cases hk2 : resolvedOf ctx key = []
      · rw [hk2] at h
        simp only [Bool.false_eq_true, if_false,
          show object_exists ctx [] st = (.error .invalidKey, st) from rfl] at h
        simp at h
      · obtain ⟨bb, hbb⟩ := object_exists_noerr ctx (resolvedOf ctx key) st hk2
        simp only [Bool.false_eq_true, if_false, hbb] at h
        cases bb with
        | true => simp at h
        | false =>
          cases hp : ctx.putFails (resolvedOf ctx key) with
          | true => simp [s3Put, hp] at h
          | false =>
            simp only [s3Put, hp, Bool.false_eq_true, if_false] at h
            obtain ⟨h1, -⟩ := Prod.mk.inj h
            rw [← Except.ok.inj h1]

theorem get_object_info_some_key {ctx : Ctx} {key : Str} {st st' : St}
    {i : StoredObjectInfo}
    (h : get_object_info ctx key st = (.ok (some i), st')) :
    resolve_key ctx key = .ok i.key := by
  by_cases hk : key = []
  · subst hk
    unfold get_object_info resolve_key at h
    simp at h
  · rw [resolve_key_eq ctx key hk]
    unfold get_object_info at h
    rw [resolve_key_eq ctx key hk] at h
    simp only [] at h
    cases hh : s3Head ctx st (resolvedOf ctx key) with
    | error e =>
      rw [hh] at h
      simp at h
    | ok o =>
      rw [hh] at h
      simp only [] at h
      obtain ⟨h1, -⟩ := Prod.mk.inj h
      rw [← Option.some.inj (Except.ok.inj h1)]

theorem replace_manifest_key_logical {ctx : Ctx} {song_id : Str} {asset : Asset}
    {file : Body} {ct : Option Str} {mdx : List (Str × Str)} {uid : Option Str}
    {pfx : Option Str} {e : Option Nat} {st st' : St} {res : MediaBundleResult}
    (hrun : replace_media_asset ctx song_id asset file ct mdx uid pfx e st =
      (.ok res, st')) :
    res.manifest_key = manifestKeyOf song_id pfx := by
  unfold replace_media_asset at hrun
  simp only [] at hrun
  split at hrun
  · exact absurd hrun (by simp)
  · split at hrun
    · exact absurd hrun (by simp)
    · split at hrun
      · exact absurd hrun (by simp)
      · split at hrun
        · exact absurd hrun (by simp)
        · split at hrun
          · exact absurd hrun (by simp)
          · obtain ⟨h1, -⟩ := Prod.mk.inj hrun
            rw [← Except.ok.inj h1]
            rfl

/-! ### Claim C3 — results report resolved keys -/

/-- C3 counterexample: with base path `p`, a successful bundle upload reports
`UploadResult`-derived keys in resolved form (`p/songs/s/audio`), but
`MediaBundleResult.manifest_key` is the LOGICAL key `songs/s/manifest.json`,
which differs from its resolved form `p/songs/s/manifest.json`. -/
theorem c3_counterexample :
    (upload_media_bundle pBaseCtx (str "s") (.raw [9]) none none none none none
        none [] none (some 3600) []).1 =
      .ok ⟨str "s", some (str "p/songs/s/audio"), none, none,
        some (str "presigned://p/p/songs/s/audio?exp=3600"), none, none,
        str "songs/s/manifest.json",
        some (str "presigned://p/songs/s/manifest.json?exp=3600")⟩ ∧
    resolve_key pBaseCtx (str "songs/s/manifest.json") =
      .ok (str "p/songs/s/manifest.json") ∧
    (str "songs/s/manifest.json" : Str) ≠ str "p/songs/s/manifest.json" :=
  ⟨by rfl, rfl, by decide⟩

/-- C3 (amended): `UploadResult.key` and `StoredObjectInfo.key` always carry
the resolved key; in a successful bundle upload the per-asset result keys and
manifest `keys` slots are resolved as well; but `MediaBundleResult.manifest_key`
— in both `upload_media_bundle` and `replace_media_asset` — is the LOGICAL
manifest key `{prefix}/manifest.json`, which coincides with the resolved key
only when the configured base path is empty (and the normalized prefix is
non-empty). -/
theorem c3_resolved_keys :
    (∀ (ctx : Ctx) (key : Str) (b : Body) (ct : Option Str)
       (mdx : List (Str × Str)) (ow : Bool) (st st' : St) (u : UploadResult),
      upload_file ctx key b ct mdx ow st = (.ok u, st') →
      resolve_key ctx key = .ok u.key) ∧
    (∀ (ctx : Ctx) (key : Str) (st st' : St) (i : StoredObjectInfo),
      get_object_info ctx key st = (.ok (some i), st') →
      resolve_key ctx key = .ok i.key) ∧
    (∀ (ctx : Ctx) (song_id : Str) (asset : Asset) (file : Body) (ct : Option Str)
       (mdx : List (Str × Str)) (uid : Option Str) (pfx : Option Str)
       (e : Option Nat) (st st' : St) (res : MediaBundleResult),
      replace_media_asset ctx song_id asset file ct mdx uid pfx e st =
        (.ok res, st') →
      res.manifest_key = manifestKeyOf song_id pfx) ∧
    (∀ (ctx : Ctx) (song_id : Str) (audio : Body) (act : Option Str)
       (video : Option Body) (vct : Option Str) (art : Option Body)
       (arct : Option Str) (pfx : Option Str) (md : List (Str × Str))
       (uid : Option Str) (e : Option Nat) (st : St),
      song_id ≠ [] →
      ctx.putFails (resolvedOf ctx (assetKeyOf song_id pfx .audio)) = false →
      (∀ v, video = some v →
        ctx.putFails (resolvedOf ctx (assetKeyOf song_id pfx .video)) = false) →
      (∀ a, art = some a →
        ctx.putFails (resolvedOf ctx (assetKeyOf song_id pfx .art)) = false) →
      ctx.putFails (resolvedOf ctx (manifestKeyOf song_id pfx)) = false →
      ctx.putFails
        (logPutKey ctx (resolvedOf ctx (assetKeyOf song_id pfx .audio))) = false →
      (∀ v, video = some v → ctx.putFails
        (logPutKey ctx (resolvedOf ctx (assetKeyOf song_id pfx .video))) = false) →
      (∀ a, art = some a → ctx.putFails
        (logPutKey ctx (resolvedOf ctx (assetKeyOf song_id pfx .art))) = false) →
      ∃ res st' o m,
        upload_media_bundle ctx song_id audio act video vct art arct pfx md uid
          e st = (.ok res, st') ∧
        res.audio_key = some (resolvedOf ctx (assetKeyOf song_id pfx .audio)) ∧
        res.video_key =
          video.map (fun _ => resolvedOf ctx (assetKeyOf song_id pfx .video)) ∧
        res.art_key =
          art.map (fun _ => resolvedOf ctx (assetKeyOf song_id pfx .art)) ∧
        res.manifest_key = manifestKeyOf song_id pfx ∧
        find st' (resolvedOf ctx (manifestKeyOf song_id pfx)) = some o ∧
        o.body = .manifestJson m ∧
        m.keys_audio = some (resolvedOf ctx (assetKeyOf song_id pfx .audio)) ∧
        m.keys_video =
          video.map (fun _ => resolvedOf ctx (assetKeyOf song_id pfx .video)) ∧
        m.keys_art =
          art.map (fun _ => resolvedOf ctx (assetKeyOf song_id pfx .art))) ∧
    (∀ (ctx : Ctx) (song_id : Str) (pfx : Option Str),
      ctx.base_path = [] → normalizedPfx song_id pfx ≠ [] →
      resolvedOf ctx (manifestKeyOf song_id pfx) = manifestKeyOf song_id pfx) := by
  refine ⟨fun ctx key b ct mdx ow st st' u h => upload_file_ok_key h,
    fun ctx key st st' i h => get_object_info_some_key h,
    fun ctx song_id asset file ct mdx uid pfx e st st' res h =>
      replace_manifest_key_logical h,
    fun ctx song_id audio act video vct art arct pfx md uid e st
      hsid hpA hpV hpAr hpM hpLA hpLV hpLAr => ?_,
    fun ctx song_id pfx hb hnp =>
      resolved_manifestKey_of_empty_bp ctx song_id pfx hb hnp⟩
  exact bundle_success_spec ctx song_id audio act video vct art arct pfx md uid
    e st hsid hpA hpV hpAr hpM hpLA hpLV hpLAr

/-- The result of the concrete replace run used in the C3 witness. -/
def c3ReplRes : MediaBundleResult :=
  ⟨str "s", none, none, some (str "songs/s/art"), none, none,
   some (str "https://cdn.example/songs/s/art"), str "songs/s/manifest.json",
   some (str "https://cdn.example/songs/s/manifest.json")⟩

/-- The store after the concrete replace run used in the C3 witness. -/
def c3ReplSt : St :=
  [(str "songs/s/upload_log_5000.json",
    ⟨.logJson ⟨some (str "s"), none, str "songs/s/art", str "available", some 1,
      none, none, 5⟩, some (str "application/json"),
     [(str "song_id", str "s"), (str "type", str "upload_log")]⟩),
   (str "songs/s/manifest.json",
    ⟨.manifestJson ⟨str "s", some 5, str "bucket", str "songs/s", none, none,
      some (str "https://cdn.example/songs/s/art"), none, none,
      some (str "songs/s/art"), [], none, none, none, none, none, none, none⟩,
     some (str "application/json"),
     [(str "song_id", str "s"), (str "type", str "manifest")]⟩),
   (str "songs/s/art",
    ⟨.raw [1], none, [(str "song_id", str "s"), (str "type", str "art")]⟩)]

/-- C3 witness: each part of the amended claim exercised at a concrete
input. -/
theorem c3_witness :
    resolve_key emptyBaseCtx (str "k") = .ok (str "k") ∧
    resolve_key emptyBaseCtx (str "k2") = .ok (str "k2") ∧
    c3ReplRes.manifest_key = manifestKeyOf (str "s") none ∧
    (∃ res st' o m,
      upload_media_bundle emptyBaseCtx (str "s") (.raw [9]) none none none none
        none none [] none (some 3600) [] = (.ok res, st') ∧
      res.audio_key = some (str "songs/s/audio") ∧
      res.video_key = none ∧
      res.art_key = none ∧
      res.manifest_key = str "songs/s/manifest.json" ∧
      find st' (str "songs/s/manifest.json") = some o ∧
      o.body = .manifestJson m ∧
      m.keys_audio = some (str "songs/s/audio") ∧
      m.keys_video = none ∧
      m.keys_art = none) ∧
    resolvedOf emptyBaseCtx (manifestKeyOf (str "s") none) =
      manifestKeyOf (str "s") none :=
  ⟨c3_resolved_keys.1 emptyBaseCtx (str "k") (.raw [1]) none [] true []
      [(str "k", ⟨.raw [1], none, []⟩)] ⟨str "k", none, none⟩ rfl,
   c3_resolved_keys.2.1 emptyBaseCtx (str "k2") [(str "k2", sampleObj)]
      [(str "k2", sampleObj)] ⟨str "k2", some 1, none, none, none⟩ rfl,
   c3_resolved_keys.2.2.1 emptyBaseCtx (str "s") .art (.raw [1]) none [] none
      none none [] c3ReplSt c3ReplRes (by rfl),
   c3_resolved_keys.2.2.2.1 emptyBaseCtx (str "s") (.raw [9]) none none none
      none none none [] none (some 3600) [] (by decide) rfl
      (fun v h => nomatch h) (fun a h => nomatch h) rfl rfl
      (fun v h => nomatch h) (fun a h => nomatch h),
   c3_resolved_keys.2.2.2.2 emptyBaseCtx (str "s") none (by decide) (by decide)⟩

/-! ### Claim C7 — bundle manifest slot invariant -/

/-- C7: every successful `upload_media_bundle` call (non-empty song id, all
involved writes succeeding) persists a manifest whose `keys.audio` is
non-null, whose `keys.video` is null iff the `video` argument was omitted, and
whose `keys.art` is null iff the `art` argument was omitted. -/
theorem c7_bundle_manifest_invariant (ctx : Ctx) (song_id : Str) (audio : Body)
    (act : Option Str) (video : Option Body) (vct : Option Str)
    (art : Option Body) (arct : Option Str) (pfx : Option Str)
    (md : List (Str × Str)) (uid : Option Str) (e : Option Nat) (st : St)
    (hsid : song_id ≠ [])
    (hpA : ctx.putFails (resolvedOf ctx (assetKeyOf song_id pfx .audio)) = false)
    (hpV : ∀ v, video = some v →
      ctx.putFails (resolvedOf ctx (assetKeyOf song_id pfx .video)) = false)
    (hpAr : ∀ a, art = some a →
      ctx.putFails (resolvedOf ctx (assetKeyOf song_id pfx .art)) = false)
    (hpM : ctx.putFails (resolvedOf ctx (manifestKeyOf song_id pfx)) = false)
    (hpLA : ctx.putFails
      (logPutKey ctx (resolvedOf ctx (assetKeyOf song_id pfx .audio))) = false)
    (hpLV : ∀ v, video = some v → ctx.putFails
      (logPutKey ctx (resolvedOf ctx (assetKeyOf song_id pfx .video))) = false)
    (hpLAr : ∀ a, art = some a → ctx.putFails
      (logPutKey ctx (resolvedOf ctx (assetKeyOf song_id pfx .art))) = false) :
    ∃ res st' o m,
      upload_media_bundle ctx song_id audio act video vct art arct pfx md uid e st =
        (.ok res, st') ∧
      find st' (resolvedOf ctx (manifestKeyOf song_id pfx)) = some o ∧
      o.body = .manifestJson m ∧
      m.keys_audio ≠ none ∧
      (m.keys_video = none ↔ video = none) ∧
      (m.keys_art = none ↔ art = none) := by
  obtain ⟨res, st', o, m, hrun, -, -, -, -, hfind, hbody, hka, hkv, hkar⟩ :=
    bundle_success_spec ctx song_id audio act video vct art arct pfx md uid e st
      hsid hpA hpV hpAr hpM hpLA hpLV hpLAr
  refine ⟨res, st', o, m, hrun, hfind, hbody, by simp [hka], ?_, ?_⟩
  · rw [hkv]
    cases video <;> simp
  · rw [hkar]
    cases art <;> simp

/-- C7 witness: a concrete bundle upload with audio and art supplied and
video omitted. -/
theorem c7_witness :
    ∃ res st' o m,
      upload_media_bundle emptyBaseCtx (str "s") (.raw [9]) none none none
        (some (.raw [8])) none none [] none (some 3600) [] = (.ok res, st') ∧
      find st' (resolvedOf emptyBaseCtx (manifestKeyOf (str "s") none)) = some o ∧
      o.body = .manifestJson m ∧
      m.keys_audio ≠ none ∧
      (m.keys_video = none ↔ (none : Option Body) = none) ∧
      (m.keys_art = none ↔ (some (Body.raw [8]) : Option Body) = none) :=
  c7_bundle_manifest_invariant emptyBaseCtx (str "s") (.raw [9]) none none none
    (some (.raw [8])) none none [] none (some 3600) [] (by decide) rfl
    (fun v h => nomatch h) (fun a _ => rfl) rfl rfl (fun v h => nomatch h)
    (fun a _ => rfl)

end Storage

